import Mathlib

/-!
Shallow embedding of `building_processor_tool.py`: a six-stage ArcPy pipeline
(`process_las_dataset`) that turns a LAS point-cloud dataset into building
footprints and roof forms.  File-system visibility (`arcpy.Exists`,
`os.path.exists`) is modelled as lists of paths; the six external processing
routines and `arcpy.Describe` are oracle functions supplied as parameters;
Python exceptions raised by a routine are modelled as an `Option String`
returned next to the routine's file-system effect.  Every call the adapter
makes to a workspace-creation operation or an external routine is recorded in
an instrumented trace so that ordering/isolation properties can be stated.
-/

/-- Path join as used via `os.path.join` (separator abstracted to "/"). -/
def pjoin (a b : String) : String := a ++ "/" ++ b

/-- Split a character list at every occurrence of `sep` (like Python
`str.split` with all pieces kept, including empty ones). -/
def splitChar (sep : Char) : List Char → List (List Char)
  | [] => [[]]
  | c :: rest =>
      let r := splitChar sep rest
      if c == sep then [] :: r
      else
        match r with
        | [] => [[c]]
        | h :: t => (c :: h) :: t

/-- Last path component, as `os.path.basename`. -/
def basename (p : String) : String :=
  String.mk ((splitChar '/' p.toList).getLastD [])

/-- Root of `os.path.splitext`: drop the extension at the last dot, except
when every character before that dot is itself a dot (Python keeps names such
as ".cshrc" whole). -/
def splitextRoot (s : String) : String :=
  let l := s.toList
  match List.findIdx? (fun ch => ch == '.') l.reverse with
  | none => s
  | some i =>
      let cut := l.length - 1 - i
      if (l.take cut).all (fun ch => ch == '.') then s
      else String.mk (l.take cut)

/-- File-system state visible to `arcpy.Exists` (datasets, rasters,
geodatabases) and to `os.path.exists` (plain folders). -/
structure FsState where
  datasets : List String
  folders : List String
deriving DecidableEq

/-- Add a dataset/raster/geodatabase path. -/
def addDataset (fs : FsState) (p : String) : FsState :=
  { fs with datasets := fs.datasets ++ [p] }

/-- Add a plain folder path. -/
def addFolder (fs : FsState) (p : String) : FsState :=
  { fs with folders := fs.folders ++ [p] }

/-- Result of `arcpy.Describe` on the input dataset.  `spatialReference`
holds the spatial-reference name, or `none` when the dataset carries no
(truthy) spatial reference. -/
structure DescribeResult where
  dataType : String
  pointCount : Nat
  fileCount : Nat
  spatialReference : Option String
deriving DecidableEq

/-- Parameter set of `scripts.extract_elevation_from_las.run`
(source lines 111-124). -/
structure ElevParams where
  home_directory : String
  project_ws : String
  input_las_dataset : String
  cell_size : String
  only_ground_plus_class_code : Bool
  class_code : Int
  output_elevation_raster : String
  classify_noise : Bool
  minimum_height : String
  maximum_height : String
  processing_extent : String
  debug : Nat
deriving DecidableEq

/-- Parameter set of `scripts.create_building_mosaic.run`
(source lines 158-167); the spatial reference is carried by name. -/
structure MosaicParams where
  home_directory : String
  project_ws : String
  in_lasd : String
  out_folder : String
  out_mosaic : String
  spatial_ref : String
  cell_size : String
  debug : Nat
deriving DecidableEq

/-- Parameter set of the `FocalStatistics` call (source lines 187-192):
a 3x3 CELL rectangle neighbourhood, MAJORITY statistic, ignoring NoData. -/
structure FocalParams where
  in_raster : String
  nbr_width : Nat
  nbr_height : Nat
  nbr_units : String
  statistics_type : String
  ignore_nodata : String
deriving DecidableEq

/-- Parameter set of `scripts.footprints_from_raster.run`
(source lines 219-239).  Python float literals are carried verbatim as
strings, as the adapter never interprets them. -/
structure FootprintParams where
  home_directory : String
  project_ws : String
  in_raster : String
  min_area : String
  split_features : String
  simplify_tolerance : String
  output_poly : String
  reg_circles : Bool
  circle_min_area : String
  min_compactness : String
  circle_tolerance : String
  lg_reg_method : String
  lg_min_area : String
  lg_tolerance : String
  med_reg_method : String
  med_min_area : String
  med_tolerance : String
  sm_reg_method : String
  sm_tolerance : String
  debug : Nat
deriving DecidableEq

/-- Parameter set of `scripts.roof_part_segmentation.run`
(source lines 269-282). -/
structure SegmentParams where
  home_directory : String
  project_ws : String
  features : String
  dsm : String
  spectral_detail : String
  spatial_detail : String
  minimum_segment_size : Nat
  regularization_tolerance : String
  flat_only : Bool
  min_slope : Nat
  output_segments_ui : String
  debug : Nat
deriving DecidableEq

/-- Parameter set of `scripts.extract_roof_form.run`
(source lines 317-332). -/
structure RoofFormParams where
  home_directory : String
  project_ws : String
  buildings_layer : String
  dsm : String
  dtm : String
  ndsm : String
  flat_roofs : Bool
  min_flat_roof_area : String
  min_slope_roof_area : String
  min_roof_height : String
  output_buildings : String
  simplify_buildings : String
  simplify_tolerance : String
  debug : Nat
deriving DecidableEq

/-- Instrumented record of one state-changing call the adapter makes:
workspace/folder creation or an invocation of an external routine. -/
inductive Call where
  | createFileGDB (out_folder_path : String) (out_name : String)
  | makedirs (path : String)
  | extractElevation (p : ElevParams)
  | buildingMosaic (p : MosaicParams)
  | focalStatistics (p : FocalParams) (out_path : String)
  | footprintsFromRaster (p : FootprintParams)
  | segmentRoof (p : SegmentParams)
  | extractRoofForm (p : RoofFormParams)
deriving DecidableEq

/-- Pipeline stage an instrumented call belongs to (0 for workspace/folder
creation operations that are not one of the six stage routines). -/
def callStage : Call → Nat
  | .createFileGDB _ _ => 0
  | .makedirs _ => 0
  | .extractElevation _ => 1
  | .buildingMosaic _ => 2
  | .focalStatistics _ _ => 3
  | .footprintsFromRaster _ => 4
  | .segmentRoof _ => 5
  | .extractRoofForm _ => 6

/-- Full mutable state of one run: the visible file system, the message /
warning / error logs (`arcpy.AddMessage` / `AddWarning` / `AddError`), the
instrumented call trace, and the ambient `arcpy.env` settings the tool sets. -/
structure PState where
  fs : FsState
  errors : List String
  messages : List String
  warnings : List String
  calls : List Call
  envWorkspace : Option String
  envScratch : Option String
  envCellSize : Option String
  envOutputCS : Option String
  overwriteOutput : Bool
deriving DecidableEq

def addError (s : PState) (m : String) : PState :=
  { s with errors := s.errors ++ [m] }

def addMessage (s : PState) (m : String) : PState :=
  { s with messages := s.messages ++ [m] }

def addWarning (s : PState) (m : String) : PState :=
  { s with warnings := s.warnings ++ [m] }

def recordCall (s : PState) (c : Call) : PState :=
  { s with calls := s.calls ++ [c] }

/-- `arcpy.Exists`. -/
def arcpyExists (s : PState) (p : String) : Bool := s.fs.datasets.contains p

/-- `os.path.exists`. -/
def osExists (s : PState) (p : String) : Bool := s.fs.folders.contains p

/-- String suffix test by structural list comparison. -/
def strEndsWith (a b : String) : Bool :=
  a.toList.reverse.take b.toList.length == b.toList.reverse

/-- `arcpy.CreateFileGDB_management(dir, name)`: records the call and creates
`dir/name` (with a `.gdb` extension appended when absent, as ArcPy does). -/
def withGdbExt (n : String) : String := if strEndsWith n ".gdb" then n else n ++ ".gdb"

def createFileGDB (s : PState) (dir name : String) : PState :=
  let s := recordCall s (.createFileGDB dir name)
  { s with fs := addDataset s.fs (pjoin dir (withGdbExt name)) }

/-- `os.makedirs(p)`: records the call and creates the folder. -/
def makedirs (s : PState) (p : String) : PState :=
  let s := recordCall s (.makedirs p)
  { s with fs := addFolder s.fs p }

/-- External collaborators: `arcpy.Describe` on the input dataset (pure, may
raise) and the six stage routines plus the `FocalStatistics`+`save` pair.
Each routine receives its full parameter set and the current file system, and
returns the file system it leaves behind together with `some e` when it
raises an exception with message `e` (effects before the raise persist). -/
structure Oracles where
  describe : String → Except String DescribeResult
  runExtractElevation : ElevParams → FsState → FsState × Option String
  runBuildingMosaic : MosaicParams → FsState → FsState × Option String
  focalStatisticsSave : FocalParams → String → FsState → FsState × Option String
  runFootprintsFromRaster : FootprintParams → FsState → FsState × Option String
  runSegmentRoof : SegmentParams → FsState → FsState × Option String
  runExtractRoofForm : RoofFormParams → FsState → FsState × Option String

/-- Outcome of `process_las_dataset`, one constructor per `return` site:
`success` for the final `return True`, the four validation failures, and
`stageFailed k` for the `return False` inside stage `k`'s `except`/check. -/
inductive RunResult where
  | success
  | missingLasd
  | missingHome
  | missingOutdir
  | invalidLasd
  | stageFailed (stage : Nat)
deriving DecidableEq

/-- Boolean the Python function actually returns. -/
def RunResult.toBool : RunResult → Bool
  | .success => true
  | _ => false

/-- Stage names exactly as they appear in the per-stage error messages
`"Error in <stage name>: ..."` of the source. -/
def stageName : Nat → String
  | 1 => "elevation extraction"
  | 2 => "building mosaic creation"
  | 3 => "Focal Statistics"
  | 4 => "footprints creation"
  | 5 => "roof segmentation"
  | 6 => "roof form extraction"
  | _ => ""

/-- Report a stage-`k` error, as the `except` blocks do. -/
def stageError (k : Nat) (s : PState) (msg : String) : PState :=
  addError s ("Error in " ++ stageName k ++ ": " ++ msg)

/-- `check_building_class_code` (source lines 9-29): wrong `dataType` is an
error and returns `False`; an exception inside the check merely logs a
warning and the check still passes. -/
def check_building_class_code (o : Oracles) (las_dataset_path : String)
    (s : PState) : PState × Bool :=
  match o.describe las_dataset_path with
  | .error e =>
      let s := addWarning s ("Error checking LAS dataset: " ++ e)
      (addMessage s "Continuing processing despite validation check failure...", true)
  | .ok d =>
      if d.dataType == "LasDataset" then
        let s := addMessage s "LAS Dataset information:"
        let s := addMessage s ("  - Point count: " ++ toString d.pointCount)
        (addMessage s ("  - File count: " ++ toString d.fileCount), true)
      else
        (addError s ("Input is not a valid LAS dataset: " ++ las_dataset_path), false)

/-- Candidate output paths probed by `validate_roof_forms`
(source lines 36-39), in probing order. -/
def roof_form_candidates (project_ws : String) : List String :=
  [pjoin project_ws "roof_forms", pjoin project_ws "roof_forms_roofform"]

/-- `validate_roof_forms` (source lines 32-44): accept the first existing
candidate path. -/
def validate_roof_forms (project_ws : String) (s : PState) : PState × Bool :=
  match (roof_form_candidates project_ws).find? (fun p => arcpyExists s p) with
  | some p => (addMessage s ("Found roof forms output at: " ++ p), true)
  | none => (s, false)

/-- Names computed by `process_las_dataset` before the stages run and shared
by the stage bodies (Python function-level locals). -/
structure Ctx where
  las_dataset_path : String
  home_directory : String
  output_directory : String
  lasd_name : String
  project_ws : String
  intermediate_ws : String
deriving DecidableEq

/-- Elevation-stage parameters as built at source lines 111-124: fixed cell
size "0.3", class code 6, minimum height "0.5". -/
def elevParamsOf (c : Ctx) : ElevParams :=
  { home_directory := c.home_directory
    project_ws := c.project_ws
    input_las_dataset := c.las_dataset_path
    cell_size := "0.3"
    only_ground_plus_class_code := true
    class_code := 6
    output_elevation_raster := pjoin c.project_ws "elev"
    classify_noise := false
    minimum_height := "0.5"
    maximum_height := "50"
    processing_extent := "#"
    debug := 1 }

/-- STEP 1, source lines 107-134: run elevation extraction, then require all
three rasters `elev_dtm` / `elev_dsm` / `elev_ndsm`. -/
def step1 (o : Oracles) (c : Ctx) (s : PState) : PState × Bool :=
  let base := pjoin c.project_ws "elev"
  let p := elevParamsOf c
  let s := recordCall s (.extractElevation p)
  match o.runExtractElevation p s.fs with
  | (fs, some e) => (stageError 1 { s with fs := fs } e, false)
  | (fs, none) =>
      let s := { s with fs := fs }
      match ["_dtm", "_dsm", "_ndsm"].find? (fun suf => !(arcpyExists s (base ++ suf))) with
      | some suf =>
          (stageError 1 s ("Elevation raster not created: " ++ (base ++ suf)), false)
      | none => (s, true)

/-- Mosaic side-output folder name, source line 152. -/
def mosaicFolderOf (c : Ctx) : String :=
  pjoin c.output_directory (c.lasd_name ++ "_mosaic_rasters")

/-- Mosaic-stage parameters as built at source lines 158-167. -/
def mosaicParamsOf (c : Ctx) (srefName : String) : MosaicParams :=
  { home_directory := c.home_directory
    project_ws := c.project_ws
    in_lasd := c.las_dataset_path
    out_folder := mosaicFolderOf c
    out_mosaic := pjoin c.project_ws "building_mosaic"
    spatial_ref := srefName
    cell_size := "0.6 Meters"
    debug := 1 }

/-- File system handed to the mosaic routine: the side folder has been
created when absent (source lines 153-154). -/
def step2OracleInput (c : Ctx) (s : PState) : FsState :=
  if osExists s (mosaicFolderOf c) then s.fs else addFolder s.fs (mosaicFolderOf c)

/-- STEP 2, source lines 139-174: obtain the spatial reference (raising when
the dataset carries none), set ambient cell size / coordinate system, make
the side folder, run the mosaic routine, then require `building_mosaic`. -/
def step2 (o : Oracles) (c : Ctx) (s : PState) : PState × Bool :=
  match o.describe c.las_dataset_path with
  | .error e => (stageError 2 s e, false)
  | .ok d =>
      match d.spatialReference with
      | none =>
          (stageError 2 s "Could not obtain spatial reference from LAS dataset", false)
      | some srefName =>
          let s := addMessage s ("Using spatial reference from LAS dataset: " ++ srefName)
          let s := { s with envCellSize := some "0.6 Meters", envOutputCS := some srefName }
          let s := if osExists s (mosaicFolderOf c) then s else makedirs s (mosaicFolderOf c)
          let out_mosaic := pjoin c.project_ws "building_mosaic"
          let p := mosaicParamsOf c srefName
          let s := recordCall s (.buildingMosaic p)
          match o.runBuildingMosaic p s.fs with
          | (fs, some e) => (stageError 2 { s with fs := fs } e, false)
          | (fs, none) =>
              let s := { s with fs := fs }
              if arcpyExists s out_mosaic then (s, true)
              else (stageError 2 s "Building mosaic not created", false)

/-- Focal-statistics parameters as built at source lines 187-192. -/
def focalParamsOf (c : Ctx) : FocalParams :=
  { in_raster := pjoin c.project_ws "building_mosaic"
    nbr_width := 3
    nbr_height := 3
    nbr_units := "CELL"
    statistics_type := "MAJORITY"
    ignore_nodata := "DATA" }

/-- STEP 3, source lines 179-203: require the mosaic, run FocalStatistics and
save to `focal_mosaic`, then require that output. -/
def step3 (o : Oracles) (c : Ctx) (s : PState) : PState × Bool :=
  let s := addMessage s "Running Focal Statistics..."
  let focal_input := pjoin c.project_ws "building_mosaic"
  let out_focal := pjoin c.project_ws "focal_mosaic"
  if arcpyExists s focal_input then
    let p := focalParamsOf c
    let s := recordCall s (.focalStatistics p out_focal)
    match o.focalStatisticsSave p out_focal s.fs with
    | (fs, some e) => (stageError 3 { s with fs := fs } e, false)
    | (fs, none) =>
        let s := { s with fs := fs }
        if arcpyExists s out_focal then
          (addMessage s "Focal Statistics completed successfully", true)
        else (stageError 3 s "Focal statistics output not created", false)
  else
    (stageError 3 s ("Input raster for focal statistics does not exist: " ++ focal_input), false)

/-- Footprint-stage parameters as built at source lines 219-239. -/
def footprintParamsOf (c : Ctx) : FootprintParams :=
  { home_directory := c.home_directory
    project_ws := c.project_ws
    in_raster := pjoin c.project_ws "focal_mosaic"
    min_area := "32 SquareMeters"
    split_features := ""
    simplify_tolerance := "1.5 Meters"
    output_poly := pjoin c.project_ws "final_footprints"
    reg_circles := true
    circle_min_area := "4000 SquareFeet"
    min_compactness := "0.85"
    circle_tolerance := "10 Feet"
    lg_reg_method := "ANY_ANGLE"
    lg_min_area := "25000 SquareFeet"
    lg_tolerance := "2 Feet"
    med_reg_method := "RIGHT_ANGLES_AND_DIAGONALS"
    med_min_area := "5000 SquareFeet"
    med_tolerance := "4 Feet"
    sm_reg_method := "RIGHT_ANGLES"
    sm_tolerance := "4 Feet"
    debug := 1 }

/-- STEP 4, source lines 208-249: require `focal_mosaic`, run footprint
vectorization, then require `final_footprints`. -/
def step4 (o : Oracles) (c : Ctx) (s : PState) : PState × Bool :=
  let s := addMessage s "Creating footprints from raster..."
  let in_focal_raster := pjoin c.project_ws "focal_mosaic"
  let output_poly := pjoin c.project_ws "final_footprints"
  if arcpyExists s in_focal_raster then
    let p := footprintParamsOf c
    let s := recordCall s (.footprintsFromRaster p)
    match o.runFootprintsFromRaster p s.fs with
    | (fs, some e) => (stageError 4 { s with fs := fs } e, false)
    | (fs, none) =>
        let s := { s with fs := fs }
        if arcpyExists s output_poly then
          (addMessage s "Building footprints created successfully", true)
        else (stageError 4 s "Building footprints not created", false)
  else
    (stageError 4 s ("Input focal raster does not exist: " ++ in_focal_raster), false)

/-- Segmentation-stage parameters as built at source lines 269-282; the
`features` input is step 4's `output_poly` local. -/
def segmentParamsOf (c : Ctx) : SegmentParams :=
  { home_directory := c.home_directory
    project_ws := c.project_ws
    features := pjoin c.project_ws "final_footprints"
    dsm := pjoin c.project_ws "elev_dsm"
    spectral_detail := "12"
    spatial_detail := "12"
    minimum_segment_size := 555
    regularization_tolerance := "3"
    flat_only := false
    min_slope := 10
    output_segments_ui := pjoin c.project_ws "roof_segments"
    debug := 1 }

/-- File system handed to the segmentation routine: the `roof_forms` folder
inside the home directory has been created when absent (source lines
259-261). -/
def step5OracleInput (c : Ctx) (s : PState) : FsState :=
  if osExists s (pjoin c.home_directory "roof_forms") then s.fs
  else addFolder s.fs (pjoin c.home_directory "roof_forms")

/-- STEP 5, source lines 254-292: make the home-side `roof_forms` folder,
require the DSM, run roof segmentation, then require the derived
`roof_segments` + `_segmented` path. -/
def step5 (o : Oracles) (c : Ctx) (s : PState) : PState × Bool :=
  let s := addMessage s "Starting roof segmentation process..."
  let roof_segments_folder := pjoin c.home_directory "roof_forms"
  let s := if osExists s roof_segments_folder then s else makedirs s roof_segments_folder
  let dsm_path := pjoin c.project_ws "elev_dsm"
  let roof_segments := pjoin c.project_ws "roof_segments"
  if arcpyExists s dsm_path then
    let p := segmentParamsOf c
    let s := recordCall s (.segmentRoof p)
    match o.runSegmentRoof p s.fs with
    | (fs, some e) => (stageError 5 { s with fs := fs } e, false)
    | (fs, none) =>
        let s := { s with fs := fs }
        if arcpyExists s (roof_segments ++ "_segmented") then
          (addMessage s "Roof segmentation completed successfully", true)
        else (stageError 5 s "Roof segmentation failed", false)
  else
    (stageError 5 s ("DSM raster does not exist: " ++ dsm_path), false)

/-- Roof-form-stage parameters as built at source lines 317-332. -/
def roofFormParamsOf (c : Ctx) : RoofFormParams :=
  { home_directory := c.home_directory
    project_ws := c.project_ws
    buildings_layer := pjoin c.project_ws "roof_segments_segmented"
    dsm := pjoin c.project_ws "elev_dsm"
    dtm := pjoin c.project_ws "elev_dtm"
    ndsm := pjoin c.project_ws "elev_ndsm"
    flat_roofs := false
    min_flat_roof_area := "23"
    min_slope_roof_area := "7"
    min_roof_height := "2.5"
    output_buildings := pjoin c.project_ws "roof_forms"
    simplify_buildings := "true"
    simplify_tolerance := "0.3"
    debug := 1 }

/-- STEP 6, source lines 297-342: require the segmented roofs and the three
elevation rasters, run roof-form extraction, then accept either candidate
output via `validate_roof_forms`. -/
def step6 (o : Oracles) (c : Ctx) (s : PState) : PState × Bool :=
  let s := addMessage s "Starting roof form extraction..."
  let segmented_roofs := pjoin c.project_ws "roof_segments_segmented"
  let dsm_path := pjoin c.project_ws "elev_dsm"
  let dtm_path := pjoin c.project_ws "elev_dtm"
  let ndsm_path := pjoin c.project_ws "elev_ndsm"
  if !(arcpyExists s segmented_roofs) then
    (stageError 6 s ("Segmented roofs file not found: " ++ segmented_roofs), false)
  else if !(arcpyExists s dsm_path) then
    (stageError 6 s ("DSM file not found: " ++ dsm_path), false)
  else if !(arcpyExists s dtm_path) then
    (stageError 6 s ("DTM file not found: " ++ dtm_path), false)
  else if !(arcpyExists s ndsm_path) then
    (stageError 6 s ("nDSM file not found: " ++ ndsm_path), false)
  else
    let p := roofFormParamsOf c
    let s := recordCall s (.extractRoofForm p)
    match o.runExtractRoofForm p s.fs with
    | (fs, some e) => (stageError 6 { s with fs := fs } e, false)
    | (fs, none) =>
        let s := { s with fs := fs }
        let vr := validate_roof_forms c.project_ws s
        if vr.2 then (addMessage vr.1 "Roof form extraction completed successfully", true)
        else (stageError 6 vr.1 "Roof form extraction failed", false)

/-- Validation and workspace setup, source lines 51-102: input-existence
checks, creation of the Intermediate and project geodatabases (the project
block appears twice in the source and is kept twice here), ambient workspace
assignment, and the LAS validity check. -/
def setup (o : Oracles) (las_dataset_path home_directory output_directory : String)
    (s : PState) : (RunResult × PState) ⊕ (Ctx × PState) :=
  let s := { s with overwriteOutput := true }
  if !(arcpyExists s las_dataset_path) then
    .inl (.missingLasd, addError s ("LAS dataset does not exist: " ++ las_dataset_path))
  else if !(osExists s home_directory) then
    .inl (.missingHome, addError s ("Home directory does not exist: " ++ home_directory))
  else if !(osExists s output_directory) then
    .inl (.missingOutdir, addError s ("Output directory does not exist: " ++ output_directory))
  else
    let intermediate_ws := pjoin output_directory "Intermediate.gdb"
    let s := if arcpyExists s intermediate_ws then s
      else createFileGDB s output_directory "Intermediate"
    let lasd_name := splitextRoot (basename las_dataset_path)
    let gdb_name := lasd_name ++ "_processing.gdb"
    let project_ws := pjoin output_directory gdb_name
    let s := if arcpyExists s project_ws then s
      else createFileGDB (addMessage s ("Creating new File Geodatabase: " ++ project_ws))
        output_directory gdb_name
    let s := { s with envWorkspace := some project_ws, envScratch := some intermediate_ws }
    let cres := check_building_class_code o las_dataset_path s
    if cres.2 then
      let s := cres.1
      let s := if arcpyExists s project_ws then s
        else createFileGDB (addMessage s ("Creating new File Geodatabase: " ++ project_ws))
          output_directory gdb_name
      let s := { s with envWorkspace := some project_ws }
      .inr ({ las_dataset_path := las_dataset_path
              home_directory := home_directory
              output_directory := output_directory
              lasd_name := lasd_name
              project_ws := project_ws
              intermediate_ws := intermediate_ws }, s)
    else .inl (.invalidLasd, addError cres.1 ("Invalid LAS dataset: " ++ las_dataset_path))

/-- Sequencing of one stage: on failure return `False` at once with the
stage's number, otherwise continue. -/
def andThen (k : Nat) (step : PState → PState × Bool)
    (rest : PState → RunResult × PState) (s : PState) : RunResult × PState :=
  match step s with
  | (t, false) => (.stageFailed k, t)
  | (t, true) => rest t

/-- Six stages in fixed order, source lines 104-342: each stage's failure
returns `False` immediately and no later stage runs. -/
def runStages (o : Oracles) (c : Ctx) : PState → RunResult × PState :=
  andThen 1 (step1 o c)
    (andThen 2 (step2 o c)
      (andThen 3 (step3 o c)
        (andThen 4 (step4 o c)
          (andThen 5 (step5 o c)
            (andThen 6 (step6 o c)
              (fun s => (.success, s)))))))

/-- `process_las_dataset` (source lines 47-351). -/
def process_las_dataset (o : Oracles)
    (las_dataset_path home_directory output_directory : String)
    (s : PState) : RunResult × PState :=
  match setup o las_dataset_path home_directory output_directory s with
  | .inl rs => rs
  | .inr (c, s) => runStages o c s

/-- Tool parameter vector of `BuildingProcessor.getParameterInfo`: three
required inputs and three optional overrides (source lines 361-418). -/
structure ToolParams where
  las_dataset : String
  home_directory : String
  output_directory : String
  cell_size : String
  class_code : Int
  min_height : String
deriving DecidableEq

/-- `BuildingProcessor.execute` (source lines 458-477): reads only the three
required parameters and reports the terminal outcome. -/
def BuildingProcessor_execute (o : Oracles) (p : ToolParams) (s : PState) :
    RunResult × PState :=
  let res := process_las_dataset o p.las_dataset p.home_directory p.output_directory s
  if res.1.toBool then (res.1, addMessage res.2 "Processing completed successfully")
  else (res.1, addError res.2 "Processing failed - check messages above")

/-- Errors list carries a stage-`k` error message. -/
def errTagged (k : Nat) (errs : List String) : Prop :=
  ∃ m, ("Error in " ++ stageName k ++ ": " ++ m) ∈ errs

theorem step1_fail_err (o : Oracles) (c : Ctx) (s : PState)
    (h : (step1 o c s).2 = false) : errTagged 1 (step1 o c s).1.errors := by
  unfold errTagged
  simp only [step1] at h ⊢
  split at h
  next fs e heq =>
    exact ⟨e, by simp [stageError, addError, recordCall]⟩
  next fs heq =>
    split at h
    next suf heq2 =>
      exact ⟨"Elevation raster not created: " ++ (pjoin c.project_ws "elev" ++ suf),
        by simp [stageError, addError, recordCall]⟩
    next heq2 => simp at h

theorem errTagged_stageError (k : Nat) (s : PState) (m : String) :
    errTagged k (stageError k s m).errors :=
  ⟨m, by simp [stageError, addError]⟩

theorem step2_fail_err (o : Oracles) (c : Ctx) (s : PState)
    (h : (step2 o c s).2 = false) : errTagged 2 (step2 o c s).1.errors := by
  rcases hstep : step2 o c s with ⟨t, b⟩
  rw [hstep] at h
  have hb : b = false := h
  subst hb
  simp only [step2] at hstep
  repeat' split at hstep
  all_goals injection hstep with h1 h2
  all_goals first
    | exact Bool.noConfusion h2
    | (rw [← h1]; exact errTagged_stageError _ _ _)

theorem step3_fail_err (o : Oracles) (c : Ctx) (s : PState)
    (h : (step3 o c s).2 = false) : errTagged 3 (step3 o c s).1.errors := by
  rcases hstep : step3 o c s with ⟨t, b⟩
  rw [hstep] at h
  have hb : b = false := h
  subst hb
  simp only [step3] at hstep
  repeat' split at hstep
  all_goals injection hstep with h1 h2
  all_goals first
    | exact Bool.noConfusion h2
    | (rw [← h1]; exact errTagged_stageError _ _ _)

theorem step4_fail_err (o : Oracles) (c : Ctx) (s : PState)
    (h : (step4 o c s).2 = false) : errTagged 4 (step4 o c s).1.errors := by
  rcases hstep : step4 o c s with ⟨t, b⟩
  rw [hstep] at h
  have hb : b = false := h
  subst hb
  simp only [step4] at hstep
  repeat' split at hstep
  all_goals injection hstep with h1 h2
  all_goals first
    | exact Bool.noConfusion h2
    | (rw [← h1]; exact errTagged_stageError _ _ _)

theorem step5_fail_err (o : Oracles) (c : Ctx) (s : PState)
    (h : (step5 o c s).2 = false) : errTagged 5 (step5 o c s).1.errors := by
  rcases hstep : step5 o c s with ⟨t, b⟩
  rw [hstep] at h
  have hb : b = false := h
  subst hb
  simp only [step5] at hstep
  repeat' split at hstep
  all_goals injection hstep with h1 h2
  all_goals first
    | exact Bool.noConfusion h2
    | (rw [← h1]; exact errTagged_stageError _ _ _)

theorem step6_fail_err (o : Oracles) (c : Ctx) (s : PState)
    (h : (step6 o c s).2 = false) : errTagged 6 (step6 o c s).1.errors := by
  rcases hstep : step6 o c s with ⟨t, b⟩
  rw [hstep] at h
  have hb : b = false := h
  subst hb
  simp only [step6] at hstep
  repeat' split at hstep
  all_goals injection hstep with h1 h2
  all_goals first
    | exact Bool.noConfusion h2
    | (rw [← h1]; exact errTagged_stageError _ _ _)

/-- Constraint C9 needs on elevation calls: the adapter passes the fixed
constants, regardless of the tool's optional overrides. -/
def TraceOK (cc : Call) : Prop :=
  ∀ q, cc = Call.extractElevation q →
    q.cell_size = "0.3" ∧ q.class_code = 6 ∧ q.minimum_height = "0.5"

theorem step1_calls (o : Oracles) (c : Ctx) (s : PState) :
    ∀ cc ∈ (step1 o c s).1.calls,
      cc ∈ s.calls ∨ cc = Call.extractElevation (elevParamsOf c) := by
  rcases hstep : step1 o c s with ⟨t, b⟩
  intro cc hcc
  simp only [step1] at hstep
  repeat' split at hstep
  all_goals injection hstep with h1 h2
  all_goals rw [← h1] at hcc
  all_goals try simp only [stageError, addError, addMessage, addWarning, recordCall,
    List.mem_append, List.mem_singleton] at hcc
  all_goals first
    | (rcases hcc with h | h
       · exact Or.inl h
       · exact Or.inr h)
    | exact Or.inl hcc

theorem validate_roof_forms_calls (pws : String) (s : PState) :
    (validate_roof_forms pws s).1.calls = s.calls := by
  simp only [validate_roof_forms]
  split <;> simp [addMessage]

theorem step2_calls (o : Oracles) (c : Ctx) (s : PState) :
    ∀ cc ∈ (step2 o c s).1.calls,
      cc ∈ s.calls ∨ cc = Call.makedirs (mosaicFolderOf c) ∨
        ∃ q, cc = Call.buildingMosaic q := by
  rcases hstep : step2 o c s with ⟨t, b⟩
  intro cc hcc
  simp only [step2] at hstep
  repeat' split at hstep
  all_goals injection hstep with h1 h2
  all_goals rw [← h1] at hcc
  all_goals try simp only [stageError, addError, addMessage, addWarning, recordCall,
    makedirs, List.mem_append, List.mem_singleton] at hcc
  all_goals first
    | (rcases hcc with (h | h) | h
       · exact Or.inl h
       · exact Or.inr (Or.inl h)
       · exact Or.inr (Or.inr ⟨_, h⟩))
    | (rcases hcc with h | h
       · exact Or.inl h
       · exact Or.inr (Or.inr ⟨_, h⟩))
    | exact Or.inl hcc

theorem step3_calls (o : Oracles) (c : Ctx) (s : PState) :
    ∀ cc ∈ (step3 o c s).1.calls,
      cc ∈ s.calls ∨
        cc = Call.focalStatistics (focalParamsOf c) (pjoin c.project_ws "focal_mosaic") := by
  rcases hstep : step3 o c s with ⟨t, b⟩
  intro cc hcc
  simp only [step3] at hstep
  repeat' split at hstep
  all_goals injection hstep with h1 h2
  all_goals rw [← h1] at hcc
  all_goals try simp only [stageError, addError, addMessage, addWarning, recordCall,
    List.mem_append, List.mem_singleton] at hcc
  all_goals first
    | (rcases hcc with h | h
       · exact Or.inl h
       · exact Or.inr h)
    | exact Or.inl hcc

theorem step4_calls (o : Oracles) (c : Ctx) (s : PState) :
    ∀ cc ∈ (step4 o c s).1.calls,
      cc ∈ s.calls ∨ cc = Call.footprintsFromRaster (footprintParamsOf c) := by
  rcases hstep : step4 o c s with ⟨t, b⟩
  intro cc hcc
  simp only [step4] at hstep
  repeat' split at hstep
  all_goals injection hstep with h1 h2
  all_goals rw [← h1] at hcc
  all_goals try simp only [stageError, addError, addMessage, addWarning, recordCall,
    List.mem_append, List.mem_singleton] at hcc
  all_goals first
    | (rcases hcc with h | h
       · exact Or.inl h
       · exact Or.inr h)
    | exact Or.inl hcc

theorem step5_calls (o : Oracles) (c : Ctx) (s : PState) :
    ∀ cc ∈ (step5 o c s).1.calls,
      cc ∈ s.calls ∨ cc = Call.makedirs (pjoin c.home_directory "roof_forms") ∨
        cc = Call.segmentRoof (segmentParamsOf c) := by
  rcases hstep : step5 o c s with ⟨t, b⟩
  intro cc hcc
  simp only [step5] at hstep
  repeat' split at hstep
  all_goals injection hstep with h1 h2
  all_goals rw [← h1] at hcc
  all_goals try simp only [stageError, addError, addMessage, addWarning, recordCall,
    makedirs, List.mem_append, List.mem_singleton] at hcc
  all_goals first
    | (rcases hcc with (h | h) | h
       · exact Or.inl h
       · exact Or.inr (Or.inl h)
       · exact Or.inr (Or.inr h))
    | (rcases hcc with h | h
       · exact Or.inl h
       · first
         | exact Or.inr (Or.inl h)
         | exact Or.inr (Or.inr h))
    | exact Or.inl hcc

theorem step6_calls (o : Oracles) (c : Ctx) (s : PState) :
    ∀ cc ∈ (step6 o c s).1.calls,
      cc ∈ s.calls ∨ cc = Call.extractRoofForm (roofFormParamsOf c) := by
  rcases hstep : step6 o c s with ⟨t, b⟩
  intro cc hcc
  simp only [step6] at hstep
  repeat' split at hstep
  all_goals injection hstep with h1 h2
  all_goals rw [← h1] at hcc
  all_goals try simp only [stageError, addError, addMessage, addWarning, recordCall,
    validate_roof_forms_calls, List.mem_append, List.mem_singleton] at hcc
  all_goals first
    | (rcases hcc with h | h
       · exact Or.inl h
       · exact Or.inr h)
    | exact Or.inl hcc

theorem check_building_class_code_calls (o : Oracles) (las : String) (s : PState) :
    (check_building_class_code o las s).1.calls = s.calls := by
  simp only [check_building_class_code]
  repeat' split
  all_goals simp [addMessage, addWarning, addError]

theorem check_building_class_code_fs (o : Oracles) (las : String) (s : PState) :
    (check_building_class_code o las s).1.fs = s.fs := by
  simp only [check_building_class_code]
  repeat' split
  all_goals simp [addMessage, addWarning, addError]

theorem check_building_class_code_env (o : Oracles) (las : String) (s : PState) :
    (check_building_class_code o las s).1.envWorkspace = s.envWorkspace ∧
      (check_building_class_code o las s).1.envScratch = s.envScratch := by
  simp only [check_building_class_code]
  repeat' split
  all_goals simp [addMessage, addWarning, addError]

theorem setup_inl_shape (o : Oracles) (las home outdir : String) (s : PState)
    (r : RunResult) (t : PState)
    (h : setup o las home outdir s = .inl (r, t)) :
    r = .missingLasd ∨ r = .missingHome ∨ r = .missingOutdir ∨ r = .invalidLasd := by
  simp only [setup] at h
  repeat' split at h
  all_goals first
    | exact Sum.noConfusion h
    | (injection h with h1
       injection h1 with h2 h3
       subst h2
       simp)

theorem setup_inr_calls (o : Oracles) (las home outdir : String) (s : PState)
    (c : Ctx) (s1 : PState)
    (h : setup o las home outdir s = .inr (c, s1)) :
    ∀ cc ∈ s1.calls, cc ∈ s.calls ∨ ∃ d n, cc = Call.createFileGDB d n := by
  intro cc hcc
  simp only [setup] at h
  repeat' split at h
  all_goals first
    | exact Sum.noConfusion h
    | (injection h with h1
       injection h1 with h2 h3
       subst h3
       simp only [check_building_class_code_calls, createFileGDB, recordCall, addMessage,
         List.mem_append, List.mem_singleton] at hcc
       first
        | (rcases hcc with ((h4 | h4) | h4) | h4
           · exact Or.inl h4
           · exact Or.inr ⟨_, _, h4⟩
           · exact Or.inr ⟨_, _, h4⟩
           · exact Or.inr ⟨_, _, h4⟩)
        | (rcases hcc with (h4 | h4) | h4
           · exact Or.inl h4
           · exact Or.inr ⟨_, _, h4⟩
           · exact Or.inr ⟨_, _, h4⟩)
        | (rcases hcc with h4 | h4
           · exact Or.inl h4
           · exact Or.inr ⟨_, _, h4⟩)
        | exact Or.inl hcc)

theorem andThen_eq (k : Nat) (step : PState → PState × Bool)
    (rest : PState → RunResult × PState) (s : PState) :
    andThen k step rest s =
      if (step s).2 = true then rest (step s).1 else (.stageFailed k, (step s).1) := by
  unfold andThen
  rcases h : step s with ⟨t, b⟩
  cases b <;> simp

theorem bool_not_true_eq_false (b : Bool) (h : ¬ b = true) : b = false := by
  cases b
  · rfl
  · exact absurd rfl h

theorem runStages_stageFailed (o : Oracles) (c : Ctx) (s : PState) (k : Nat)
    (hk : (runStages o c s).1 = RunResult.stageFailed k) :
    errTagged k (runStages o c s).2.errors ∧
    ∀ cc ∈ (runStages o c s).2.calls, cc ∈ s.calls ∨ callStage cc ≤ k := by
  simp only [runStages, andThen_eq] at hk ⊢
  by_cases hb1 : (step1 o c s).2 = true
  case neg =>
    rw [if_neg hb1] at hk ⊢
    have hk1 : RunResult.stageFailed 1 = RunResult.stageFailed k := hk
    injection hk1 with hk1
    subst hk1
    refine ⟨step1_fail_err o c s (bool_not_true_eq_false _ hb1), ?_⟩
    intro cc hcc
    rcases step1_calls o c s cc hcc with h | h
    · exact Or.inl h
    · right; subst h; simp [callStage]
  rw [if_pos hb1] at hk ⊢
  have calls1 : ∀ cc ∈ (step1 o c s).1.calls, cc ∈ s.calls ∨ callStage cc ≤ 1 := by
    intro cc hcc
    rcases step1_calls o c s cc hcc with h | h
    · exact Or.inl h
    · right; subst h; simp [callStage]
  by_cases hb2 : (step2 o c (step1 o c s).1).2 = true
  case neg =>
    rw [if_neg hb2] at hk ⊢
    have hk1 : RunResult.stageFailed 2 = RunResult.stageFailed k := hk
    injection hk1 with hk1
    subst hk1
    refine ⟨step2_fail_err o c (step1 o c s).1 (bool_not_true_eq_false _ hb2), ?_⟩
    intro cc hcc
    rcases step2_calls o c (step1 o c s).1 cc hcc with h | h | h
    · rcases calls1 cc h with hx | hx
      · exact Or.inl hx
      · exact Or.inr (Nat.le_trans hx (by omega))
    · right; subst h; simp [callStage]
    · rcases h with ⟨q, h⟩
      right; subst h; simp [callStage]
  rw [if_pos hb2] at hk ⊢
  have calls2 : ∀ cc ∈ (step2 o c (step1 o c s).1).1.calls, cc ∈ s.calls ∨ callStage cc ≤ 2 := by
    intro cc hcc
    rcases step2_calls o c (step1 o c s).1 cc hcc with h | h | h
    · rcases calls1 cc h with hx | hx
      · exact Or.inl hx
      · exact Or.inr (Nat.le_trans hx (by omega))
    · right; subst h; simp [callStage]
    · rcases h with ⟨q, h⟩
      right; subst h; simp [callStage]
  by_cases hb3 : (step3 o c (step2 o c (step1 o c s).1).1).2 = true
  case neg =>
    rw [if_neg hb3] at hk ⊢
    have hk1 : RunResult.stageFailed 3 = RunResult.stageFailed k := hk
    injection hk1 with hk1
    subst hk1
    refine ⟨step3_fail_err o c (step2 o c (step1 o c s).1).1 (bool_not_true_eq_false _ hb3), ?_⟩
    intro cc hcc
    rcases step3_calls o c (step2 o c (step1 o c s).1).1 cc hcc with h | h
    · rcases calls2 cc h with hx | hx
      · exact Or.inl hx
      · exact Or.inr (Nat.le_trans hx (by omega))
    · right; subst h; simp [callStage]
  rw [if_pos hb3] at hk ⊢
  have calls3 : ∀ cc ∈ (step3 o c (step2 o c (step1 o c s).1).1).1.calls, cc ∈ s.calls ∨ callStage cc ≤ 3 := by
    intro cc hcc
    rcases step3_calls o c (step2 o c (step1 o c s).1).1 cc hcc with h | h
    · rcases calls2 cc h with hx | hx
      · exact Or.inl hx
      · exact Or.inr (Nat.le_trans hx (by omega))
    · right; subst h; simp [callStage]
  by_cases hb4 : (step4 o c (step3 o c (step2 o c (step1 o c s).1).1).1).2 = true
  case neg =>
    rw [if_neg hb4] at hk ⊢
    have hk1 : RunResult.stageFailed 4 = RunResult.stageFailed k := hk
    injection hk1 with hk1
    subst hk1
    refine ⟨step4_fail_err o c (step3 o c (step2 o c (step1 o c s).1).1).1 (bool_not_true_eq_false _ hb4), ?_⟩
    intro cc hcc
    rcases step4_calls o c (step3 o c (step2 o c (step1 o c s).1).1).1 cc hcc with h | h
    · rcases calls3 cc h with hx | hx
      · exact Or.inl hx
      · exact Or.inr (Nat.le_trans hx (by omega))
    · right; subst h; simp [callStage]
  rw [if_pos hb4] at hk ⊢
  have calls4 : ∀ cc ∈ (step4 o c (step3 o c (step2 o c (step1 o c s).1).1).1).1.calls, cc ∈ s.calls ∨ callStage cc ≤ 4 := by
    intro cc hcc
    rcases step4_calls o c (step3 o c (step2 o c (step1 o c s).1).1).1 cc hcc with h | h
    · rcases calls3 cc h with hx | hx
      · exact Or.inl hx
      · exact Or.inr (Nat.le_trans hx (by omega))
    · right; subst h; simp [callStage]
  by_cases hb5 : (step5 o c (step4 o c (step3 o c (step2 o c (step1 o c s).1).1).1).1).2 = true
  case neg =>
    rw [if_neg hb5] at hk ⊢
    have hk1 : RunResult.stageFailed 5 = RunResult.stageFailed k := hk
    injection hk1 with hk1
    subst hk1
    refine ⟨step5_fail_err o c (step4 o c (step3 o c (step2 o c (step1 o c s).1).1).1).1 (bool_not_true_eq_false _ hb5), ?_⟩
    intro cc hcc
    rcases step5_calls o c (step4 o c (step3 o c (step2 o c (step1 o c s).1).1).1).1 cc hcc with h | h | h
    · rcases calls4 cc h with hx | hx
      · exact Or.inl hx
      · exact Or.inr (Nat.le_trans hx (by omega))
    · right; subst h; simp [callStage]
    · right; subst h; simp [callStage]
  rw [if_pos hb5] at hk ⊢
  have calls5 : ∀ cc ∈ (step5 o c (step4 o c (step3 o c (step2 o c (step1 o c s).1).1).1).1).1.calls, cc ∈ s.calls ∨ callStage cc ≤ 5 := by
    intro cc hcc
    rcases step5_calls o c (step4 o c (step3 o c (step2 o c (step1 o c s).1).1).1).1 cc hcc with h | h | h
    · rcases calls4 cc h with hx | hx
      · exact Or.inl hx
      · exact Or.inr (Nat.le_trans hx (by omega))
    · right; subst h; simp [callStage]
    · right; subst h; simp [callStage]
  by_cases hb6 : (step6 o c (step5 o c (step4 o c (step3 o c (step2 o c (step1 o c s).1).1).1).1).1).2 = true
  case neg =>
    rw [if_neg hb6] at hk ⊢
    have hk1 : RunResult.stageFailed 6 = RunResult.stageFailed k := hk
    injection hk1 with hk1
    subst hk1
    refine ⟨step6_fail_err o c (step5 o c (step4 o c (step3 o c (step2 o c (step1 o c s).1).1).1).1).1 (bool_not_true_eq_false _ hb6), ?_⟩
    intro cc hcc
    rcases step6_calls o c (step5 o c (step4 o c (step3 o c (step2 o c (step1 o c s).1).1).1).1).1 cc hcc with h | h
    · rcases calls5 cc h with hx | hx
      · exact Or.inl hx
      · exact Or.inr (Nat.le_trans hx (by omega))
    · right; subst h; simp [callStage]
  rw [if_pos hb6] at hk ⊢
  simp at hk

/-- C1: if any of the six pipeline stages raises an exception or fails its
output-existence check, the failure is caught at that stage's boundary
(`process_las_dataset` returns instead of propagating), an error naming the
stage is reported, the pipeline outcome is `False`, and no later stage's
routine is invoked (every recorded call belongs to a stage no later than the
failing one). -/
theorem stage_failure_is_contained (o : Oracles) (las home outdir : String)
    (s : PState) (h0 : s.calls = []) (k : Nat)
    (hk : (process_las_dataset o las home outdir s).1 = RunResult.stageFailed k) :
    (process_las_dataset o las home outdir s).1.toBool = false ∧
    errTagged k (process_las_dataset o las home outdir s).2.errors ∧
    ∀ cc ∈ (process_las_dataset o las home outdir s).2.calls, callStage cc ≤ k := by
  unfold process_las_dataset at hk ⊢
  rcases hsu : setup o las home outdir s with ⟨r, t⟩ | ⟨c, s1⟩
  · rw [hsu] at hk
    have hk1 : r = RunResult.stageFailed k := hk
    rcases setup_inl_shape o las home outdir s r t hsu with h | h | h | h <;>
      (subst h; exact absurd hk1 (by simp))
  · rw [hsu] at hk
    have hk2 : (runStages o c s1).1 = RunResult.stageFailed k := hk
    obtain ⟨herr, hcalls⟩ := runStages_stageFailed o c s1 k hk2
    refine ⟨?_, herr, ?_⟩
    · show (runStages o c s1).1.toBool = false
      rw [hk2]
      rfl
    · intro cc hcc
      rcases hcalls cc hcc with h | h
      · rcases setup_inr_calls o las home outdir s c s1 hsu cc h with h2 | ⟨d, n, h2⟩
        · rw [h0] at h2
          simp at h2
        · subst h2
          simp [callStage]
      · exact h

theorem validate_roof_forms_bool (pws : String) (s : PState) :
    (validate_roof_forms pws s).2 =
      (arcpyExists s (pjoin pws "roof_forms") ||
        arcpyExists s (pjoin pws "roof_forms_roofform")) := by
  simp only [validate_roof_forms, roof_form_candidates]
  cases h1 : arcpyExists s (pjoin pws "roof_forms") <;>
    cases h2 : arcpyExists s (pjoin pws "roof_forms_roofform") <;>
      simp [List.find?, h1, h2]

theorem step1_success_iff (o : Oracles) (c : Ctx) (s : PState) (fs' : FsState)
    (hrun : o.runExtractElevation (elevParamsOf c) s.fs = (fs', none)) :
    (step1 o c s).2 =
      (fs'.datasets.contains (pjoin c.project_ws "elev" ++ "_dtm") &&
        fs'.datasets.contains (pjoin c.project_ws "elev" ++ "_dsm") &&
        fs'.datasets.contains (pjoin c.project_ws "elev" ++ "_ndsm")) := by
  simp only [step1, recordCall, hrun]
  by_cases h1 : pjoin c.project_ws "elev" ++ "_dtm" ∈ fs'.datasets <;>
    by_cases h2 : pjoin c.project_ws "elev" ++ "_dsm" ∈ fs'.datasets <;>
      by_cases h3 : pjoin c.project_ws "elev" ++ "_ndsm" ∈ fs'.datasets <;>
        simp [List.find?, arcpyExists, h1, h2, h3]

theorem step2_success_iff (o : Oracles) (c : Ctx) (s : PState) (d : DescribeResult)
    (srn : String) (fs' : FsState)
    (hdesc : o.describe c.las_dataset_path = Except.ok d)
    (hsr : d.spatialReference = some srn)
    (hrun : o.runBuildingMosaic (mosaicParamsOf c srn) (step2OracleInput c s) = (fs', none)) :
    (step2 o c s).2 = fs'.datasets.contains (pjoin c.project_ws "building_mosaic") := by
  simp only [step2, hdesc, hsr]
  by_cases hf : mosaicFolderOf c ∈ s.fs.folders
  · have hoi : step2OracleInput c s = s.fs := by
      simp [step2OracleInput, osExists, hf]
    rw [hoi] at hrun
    simp only [osExists, addMessage, makedirs, recordCall, addFolder, hf]
    by_cases hm : pjoin c.project_ws "building_mosaic" ∈ fs'.datasets <;>
      simp [hf, hrun, arcpyExists, hm]
  · have hoi : step2OracleInput c s = addFolder s.fs (mosaicFolderOf c) := by
      simp [step2OracleInput, osExists, hf]
    rw [hoi] at hrun
    simp only [addFolder] at hrun
    simp only [osExists, addMessage, makedirs, recordCall, addFolder, hf]
    by_cases hm : pjoin c.project_ws "building_mosaic" ∈ fs'.datasets <;>
      simp [hf, hrun, arcpyExists, hm]

theorem step3_success_iff (o : Oracles) (c : Ctx) (s : PState) (fs' : FsState)
    (hpre : pjoin c.project_ws "building_mosaic" ∈ s.fs.datasets)
    (hrun : o.focalStatisticsSave (focalParamsOf c) (pjoin c.project_ws "focal_mosaic")
      s.fs = (fs', none)) :
    (step3 o c s).2 = fs'.datasets.contains (pjoin c.project_ws "focal_mosaic") := by
  simp only [step3, addMessage, recordCall, arcpyExists]
  by_cases hm : pjoin c.project_ws "focal_mosaic" ∈ fs'.datasets <;>
    simp [hpre, hrun, arcpyExists, hm]

theorem step4_success_iff (o : Oracles) (c : Ctx) (s : PState) (fs' : FsState)
    (hpre : pjoin c.project_ws "focal_mosaic" ∈ s.fs.datasets)
    (hrun : o.runFootprintsFromRaster (footprintParamsOf c) s.fs = (fs', none)) :
    (step4 o c s).2 = fs'.datasets.contains (pjoin c.project_ws "final_footprints") := by
  simp only [step4, addMessage, recordCall, arcpyExists]
  by_cases hm : pjoin c.project_ws "final_footprints" ∈ fs'.datasets <;>
    simp [hpre, hrun, arcpyExists, hm]

theorem step5_success_iff (o : Oracles) (c : Ctx) (s : PState) (fs' : FsState)
    (hpre : pjoin c.project_ws "elev_dsm" ∈ s.fs.datasets)
    (hrun : o.runSegmentRoof (segmentParamsOf c) (step5OracleInput c s) = (fs', none)) :
    (step5 o c s).2 =
      fs'.datasets.contains (pjoin c.project_ws "roof_segments" ++ "_segmented") := by
  simp only [step5]
  by_cases hf : pjoin c.home_directory "roof_forms" ∈ s.fs.folders
  · have hoi : step5OracleInput c s = s.fs := by
      simp [step5OracleInput, osExists, hf]
    rw [hoi] at hrun
    simp only [osExists, addMessage, makedirs, recordCall, addFolder, hf]
    by_cases hm : pjoin c.project_ws "roof_segments" ++ "_segmented" ∈ fs'.datasets <;>
      simp [hf, hpre, hrun, arcpyExists, hm]
  · have hoi : step5OracleInput c s = addFolder s.fs (pjoin c.home_directory "roof_forms") := by
      simp [step5OracleInput, osExists, hf]
    rw [hoi] at hrun
    simp only [addFolder] at hrun
    simp only [osExists, addMessage, makedirs, recordCall, addFolder, hf]
    by_cases hm : pjoin c.project_ws "roof_segments" ++ "_segmented" ∈ fs'.datasets <;>
      simp [hf, hpre, hrun, arcpyExists, hm]

theorem step6_success_iff (o : Oracles) (c : Ctx) (s : PState) (fs' : FsState)
    (h1 : pjoin c.project_ws "roof_segments_segmented" ∈ s.fs.datasets)
    (h2 : pjoin c.project_ws "elev_dsm" ∈ s.fs.datasets)
    (h3 : pjoin c.project_ws "elev_dtm" ∈ s.fs.datasets)
    (h4 : pjoin c.project_ws "elev_ndsm" ∈ s.fs.datasets)
    (hrun : o.runExtractRoofForm (roofFormParamsOf c) s.fs = (fs', none)) :
    (step6 o c s).2 =
      (fs'.datasets.contains (pjoin c.project_ws "roof_forms") ||
        fs'.datasets.contains (pjoin c.project_ws "roof_forms_roofform")) := by
  simp only [step6, addMessage, recordCall]
  simp only [arcpyExists, List.elem_eq_mem, h1, h2, h3, h4, decide_True, Bool.not_true,
    Bool.false_eq_true, if_false, hrun]
  rw [apply_ite Prod.snd, validate_roof_forms_bool]
  simp [arcpyExists]

/-- C2: for every stage, after the external routine returns without raising,
the adapter's sole success criterion is existence of the stage's declared
output artifact(s) in the file system the routine left behind: the stage
succeeds exactly when they exist, and fails whenever they are absent even
though the routine reported no error. -/
theorem stage_output_existence_is_success_criterion :
    (∀ (o : Oracles) (c : Ctx) (s : PState) (fs' : FsState),
      o.runExtractElevation (elevParamsOf c) s.fs = (fs', none) →
      (step1 o c s).2 =
        (fs'.datasets.contains (pjoin c.project_ws "elev" ++ "_dtm") &&
          fs'.datasets.contains (pjoin c.project_ws "elev" ++ "_dsm") &&
          fs'.datasets.contains (pjoin c.project_ws "elev" ++ "_ndsm"))) ∧
    (∀ (o : Oracles) (c : Ctx) (s : PState) (d : DescribeResult) (srn : String)
        (fs' : FsState),
      o.describe c.las_dataset_path = Except.ok d →
      d.spatialReference = some srn →
      o.runBuildingMosaic (mosaicParamsOf c srn) (step2OracleInput c s) = (fs', none) →
      (step2 o c s).2 = fs'.datasets.contains (pjoin c.project_ws "building_mosaic")) ∧
    (∀ (o : Oracles) (c : Ctx) (s : PState) (fs' : FsState),
      pjoin c.project_ws "building_mosaic" ∈ s.fs.datasets →
      o.focalStatisticsSave (focalParamsOf c) (pjoin c.project_ws "focal_mosaic")
        s.fs = (fs', none) →
      (step3 o c s).2 = fs'.datasets.contains (pjoin c.project_ws "focal_mosaic")) ∧
    (∀ (o : Oracles) (c : Ctx) (s : PState) (fs' : FsState),
      pjoin c.project_ws "focal_mosaic" ∈ s.fs.datasets →
      o.runFootprintsFromRaster (footprintParamsOf c) s.fs = (fs', none) →
      (step4 o c s).2 = fs'.datasets.contains (pjoin c.project_ws "final_footprints")) ∧
    (∀ (o : Oracles) (c : Ctx) (s : PState) (fs' : FsState),
      pjoin c.project_ws "elev_dsm" ∈ s.fs.datasets →
      o.runSegmentRoof (segmentParamsOf c) (step5OracleInput c s) = (fs', none) →
      (step5 o c s).2 =
        fs'.datasets.contains (pjoin c.project_ws "roof_segments" ++ "_segmented")) ∧
    (∀ (o : Oracles) (c : Ctx) (s : PState) (fs' : FsState),
      pjoin c.project_ws "roof_segments_segmented" ∈ s.fs.datasets →
      pjoin c.project_ws "elev_dsm" ∈ s.fs.datasets →
      pjoin c.project_ws "elev_dtm" ∈ s.fs.datasets →
      pjoin c.project_ws "elev_ndsm" ∈ s.fs.datasets →
      o.runExtractRoofForm (roofFormParamsOf c) s.fs = (fs', none) →
      (step6 o c s).2 =
        (fs'.datasets.contains (pjoin c.project_ws "roof_forms") ||
          fs'.datasets.contains (pjoin c.project_ws "roof_forms_roofform"))) :=
  ⟨step1_success_iff, step2_success_iff, step3_success_iff, step4_success_iff,
    step5_success_iff, step6_success_iff⟩

/-- Oracle whose stage routines behave well: each creates exactly its
declared output (the roof-form routine under the alternate
`_roofform` name) and none raises. -/
def demoOracle : Oracles :=
  { describe := fun _ =>
      .ok { dataType := "LasDataset", pointCount := 100, fileCount := 2,
            spatialReference := some "SR1" }
    runExtractElevation := fun p fs =>
      (addDataset (addDataset (addDataset fs (p.output_elevation_raster ++ "_dtm"))
        (p.output_elevation_raster ++ "_dsm")) (p.output_elevation_raster ++ "_ndsm"), none)
    runBuildingMosaic := fun p fs => (addDataset fs p.out_mosaic, none)
    focalStatisticsSave := fun _ out fs => (addDataset fs out, none)
    runFootprintsFromRaster := fun p fs => (addDataset fs p.output_poly, none)
    runSegmentRoof := fun p fs => (addDataset fs (p.output_segments_ui ++ "_segmented"), none)
    runExtractRoofForm := fun p fs =>
      (addDataset fs (p.output_buildings ++ "_roofform"), none) }

/-- Names `process_las_dataset` derives for the demo inputs. -/
def demoCtx : Ctx :=
  { las_dataset_path := "d/L.las"
    home_directory := "h"
    output_directory := "o"
    lasd_name := "L"
    project_ws := "o/L_processing.gdb"
    intermediate_ws := "o/Intermediate.gdb" }

/-- Initial state: the dataset exists, the home and output folders exist. -/
def demoState : PState :=
  { fs := { datasets := ["d/L.las"], folders := ["h", "o"] }
    errors := [], messages := [], warnings := [], calls := []
    envWorkspace := none, envScratch := none, envCellSize := none, envOutputCS := none
    overwriteOutput := false }

/-- Mid-pipeline state in which every stage's inputs already exist. -/
def demoStateAll : PState :=
  { demoState with fs :=
    { datasets := ["d/L.las", "o/L_processing.gdb/building_mosaic",
        "o/L_processing.gdb/focal_mosaic", "o/L_processing.gdb/elev_dsm",
        "o/L_processing.gdb/elev_dtm", "o/L_processing.gdb/elev_ndsm",
        "o/L_processing.gdb/roof_segments_segmented"]
      folders := ["h", "o", "h/roof_forms"] } }

/-- Oracle whose elevation routine returns cleanly but creates nothing. -/
def demoOracleNoElev : Oracles :=
  { demoOracle with runExtractElevation := fun _ fs => (fs, none) }

/-- Witness for C1: a concrete run whose elevation routine creates nothing,
so stage 1 fails and is contained. -/
theorem stage_failure_is_contained_witness :
    demoState.calls = [] ∧
    (process_las_dataset demoOracleNoElev "d/L.las" "h" "o" demoState).1 =
      RunResult.stageFailed 1 ∧
    ((process_las_dataset demoOracleNoElev "d/L.las" "h" "o" demoState).1.toBool = false ∧
      errTagged 1 (process_las_dataset demoOracleNoElev "d/L.las" "h" "o" demoState).2.errors ∧
      ∀ cc ∈ (process_las_dataset demoOracleNoElev "d/L.las" "h" "o" demoState).2.calls,
        callStage cc ≤ 1) :=
  ⟨rfl, rfl,
    stage_failure_is_contained demoOracleNoElev "d/L.las" "h" "o" demoState rfl 1 rfl⟩

/-- Description the demo oracle reports. -/
def demoDesc : DescribeResult :=
  { dataType := "LasDataset", pointCount := 100, fileCount := 2,
    spatialReference := some "SR1" }

def demoElevOut : FsState :=
  (demoOracle.runExtractElevation (elevParamsOf demoCtx) demoStateAll.fs).1

def demoMosaicOut : FsState :=
  (demoOracle.runBuildingMosaic (mosaicParamsOf demoCtx "SR1")
    (step2OracleInput demoCtx demoStateAll)).1

def demoFocalOut : FsState :=
  (demoOracle.focalStatisticsSave (focalParamsOf demoCtx)
    (pjoin demoCtx.project_ws "focal_mosaic") demoStateAll.fs).1

def demoFootprintOut : FsState :=
  (demoOracle.runFootprintsFromRaster (footprintParamsOf demoCtx) demoStateAll.fs).1

def demoSegmentOut : FsState :=
  (demoOracle.runSegmentRoof (segmentParamsOf demoCtx)
    (step5OracleInput demoCtx demoStateAll)).1

def demoRoofFormOut : FsState :=
  (demoOracle.runExtractRoofForm (roofFormParamsOf demoCtx) demoStateAll.fs).1

/-- Witness for C2: each of the six conjuncts applied to the demo oracle in a
state where the stage's pre-checks pass and the routine raises nothing. -/
theorem stage_output_existence_is_success_criterion_witness :
    (demoOracle.runExtractElevation (elevParamsOf demoCtx) demoStateAll.fs =
        (demoElevOut, none) ∧
      (step1 demoOracle demoCtx demoStateAll).2 =
        (demoElevOut.datasets.contains (pjoin demoCtx.project_ws "elev" ++ "_dtm") &&
          demoElevOut.datasets.contains (pjoin demoCtx.project_ws "elev" ++ "_dsm") &&
          demoElevOut.datasets.contains (pjoin demoCtx.project_ws "elev" ++ "_ndsm"))) ∧
    (demoOracle.describe demoCtx.las_dataset_path = Except.ok demoDesc ∧
      demoDesc.spatialReference = some "SR1" ∧
      demoOracle.runBuildingMosaic (mosaicParamsOf demoCtx "SR1")
        (step2OracleInput demoCtx demoStateAll) = (demoMosaicOut, none) ∧
      (step2 demoOracle demoCtx demoStateAll).2 =
        demoMosaicOut.datasets.contains (pjoin demoCtx.project_ws "building_mosaic")) ∧
    (pjoin demoCtx.project_ws "building_mosaic" ∈ demoStateAll.fs.datasets ∧
      demoOracle.focalStatisticsSave (focalParamsOf demoCtx)
        (pjoin demoCtx.project_ws "focal_mosaic") demoStateAll.fs = (demoFocalOut, none) ∧
      (step3 demoOracle demoCtx demoStateAll).2 =
        demoFocalOut.datasets.contains (pjoin demoCtx.project_ws "focal_mosaic")) ∧
    (pjoin demoCtx.project_ws "focal_mosaic" ∈ demoStateAll.fs.datasets ∧
      demoOracle.runFootprintsFromRaster (footprintParamsOf demoCtx) demoStateAll.fs =
        (demoFootprintOut, none) ∧
      (step4 demoOracle demoCtx demoStateAll).2 =
        demoFootprintOut.datasets.contains (pjoin demoCtx.project_ws "final_footprints")) ∧
    (pjoin demoCtx.project_ws "elev_dsm" ∈ demoStateAll.fs.datasets ∧
      demoOracle.runSegmentRoof (segmentParamsOf demoCtx)
        (step5OracleInput demoCtx demoStateAll) = (demoSegmentOut, none) ∧
      (step5 demoOracle demoCtx demoStateAll).2 =
        demoSegmentOut.datasets.contains
          (pjoin demoCtx.project_ws "roof_segments" ++ "_segmented")) ∧
    (pjoin demoCtx.project_ws "roof_segments_segmented" ∈ demoStateAll.fs.datasets ∧
      pjoin demoCtx.project_ws "elev_dsm" ∈ demoStateAll.fs.datasets ∧
      pjoin demoCtx.project_ws "elev_dtm" ∈ demoStateAll.fs.datasets ∧
      pjoin demoCtx.project_ws "elev_ndsm" ∈ demoStateAll.fs.datasets ∧
      demoOracle.runExtractRoofForm (roofFormParamsOf demoCtx) demoStateAll.fs =
        (demoRoofFormOut, none) ∧
      (step6 demoOracle demoCtx demoStateAll).2 =
        (demoRoofFormOut.datasets.contains (pjoin demoCtx.project_ws "roof_forms") ||
          demoRoofFormOut.datasets.contains
            (pjoin demoCtx.project_ws "roof_forms_roofform"))) :=
  ⟨⟨rfl, stage_output_existence_is_success_criterion.1 demoOracle demoCtx demoStateAll
      demoElevOut rfl⟩,
    ⟨rfl, rfl, rfl, stage_output_existence_is_success_criterion.2.1 demoOracle demoCtx
      demoStateAll demoDesc "SR1" demoMosaicOut rfl rfl rfl⟩,
    ⟨by decide, rfl, stage_output_existence_is_success_criterion.2.2.1 demoOracle demoCtx
      demoStateAll demoFocalOut (by decide) rfl⟩,
    ⟨by decide, rfl, stage_output_existence_is_success_criterion.2.2.2.1 demoOracle demoCtx
      demoStateAll demoFootprintOut (by decide) rfl⟩,
    ⟨by decide, rfl, stage_output_existence_is_success_criterion.2.2.2.2.1 demoOracle demoCtx
      demoStateAll demoSegmentOut (by decide) rfl⟩,
    ⟨by decide, by decide, by decide, by decide, rfl,
      stage_output_existence_is_success_criterion.2.2.2.2.2 demoOracle demoCtx
        demoStateAll demoRoofFormOut (by decide) (by decide) (by decide) (by decide) rfl⟩⟩

/-- C3: under a clean elevation-routine run, the stage succeeds exactly when
all three rasters `_dtm`, `_dsm` and `_ndsm` exist in the routine’s output
file system, and whenever any one of the three is missing the stage reports a
stage-1 error, the pipeline outcome is `False`, and no later stage’s routine
is ever invoked (every recorded call is at most stage 1). -/
theorem elevation_requires_all_three_rasters (o : Oracles) (c : Ctx) (s : PState)
    (h0 : s.calls = []) (fs' : FsState)
    (hrun : o.runExtractElevation (elevParamsOf c) s.fs = (fs', none)) :
    ((step1 o c s).2 = true ↔
      (pjoin c.project_ws "elev" ++ "_dtm" ∈ fs'.datasets ∧
        pjoin c.project_ws "elev" ++ "_dsm" ∈ fs'.datasets ∧
        pjoin c.project_ws "elev" ++ "_ndsm" ∈ fs'.datasets)) ∧
    ∀ suf ∈ ["_dtm", "_dsm", "_ndsm"],
      pjoin c.project_ws "elev" ++ suf ∉ fs'.datasets →
      (runStages o c s).1 = RunResult.stageFailed 1 ∧
      (runStages o c s).1.toBool = false ∧
      errTagged 1 (runStages o c s).2.errors ∧
      ∀ cc ∈ (runStages o c s).2.calls, callStage cc ≤ 1 := by
  have hs := step1_success_iff o c s fs' hrun
  constructor
  · rw [hs]
    simp only [List.contains, List.elem_eq_mem, Bool.and_eq_true, decide_eq_true_iff]
    tauto
  · intro suf hsuf hmiss
    have hfalse : (step1 o c s).2 = false := by
      simp only [List.mem_cons, List.not_mem_nil, or_false] at hsuf
      rcases hsuf with h | h | h <;> subst h <;>
        (rw [hs]; simp [List.contains, List.elem_eq_mem, hmiss])
    have hrs : runStages o c s = (RunResult.stageFailed 1, (step1 o c s).1) := by
      simp [runStages, andThen_eq, hfalse]
    rw [hrs]
    refine ⟨rfl, rfl, step1_fail_err o c s hfalse, ?_⟩
    intro cc hcc
    rcases step1_calls o c s cc hcc with h | h
    · rw [h0] at h
      simp at h
    · subst h
      simp [callStage]

/-- C4: when the dataset carries no spatial reference, the building-mosaic
stage fails before its external routine is invoked: the pipeline outcome is
`False` with the spatial-reference error reported, no recorded call goes
beyond stage 1 (in particular no mosaic-routine call), and the mosaic
artifact does not exist afterwards when it did not exist after stage 1. -/
theorem mosaic_fails_without_spatial_reference (o : Oracles) (c : Ctx) (s : PState)
    (h0 : s.calls = []) (d : DescribeResult)
    (hdesc : o.describe c.las_dataset_path = Except.ok d)
    (hsr : d.spatialReference = none)
    (h1 : (step1 o c s).2 = true)
    (hout : pjoin c.project_ws "building_mosaic" ∉ (step1 o c s).1.fs.datasets) :
    (runStages o c s).1 = RunResult.stageFailed 2 ∧
    (runStages o c s).1.toBool = false ∧
    ("Error in " ++ stageName 2 ++ ": " ++
      "Could not obtain spatial reference from LAS dataset") ∈ (runStages o c s).2.errors ∧
    (∀ cc ∈ (runStages o c s).2.calls, callStage cc ≤ 1) ∧
    pjoin c.project_ws "building_mosaic" ∉ (runStages o c s).2.fs.datasets := by
  have hs2 : step2 o c (step1 o c s).1 =
      (stageError 2 (step1 o c s).1
        "Could not obtain spatial reference from LAS dataset", false) := by
    simp [step2, hdesc, hsr]
  have hrs : runStages o c s =
      (RunResult.stageFailed 2,
        stageError 2 (step1 o c s).1
          "Could not obtain spatial reference from LAS dataset") := by
    simp [runStages, andThen_eq, h1, hs2]
  rw [hrs]
  refine ⟨rfl, rfl, by simp [stageError, addError], ?_, ?_⟩
  · intro cc hcc
    simp only [stageError, addError] at hcc
    rcases step1_calls o c s cc hcc with h | h
    · rw [h0] at h
      simp at h
    · subst h
      simp [callStage]
  · simp only [stageError, addError]
    exact hout

/-- Oracle whose elevation routine creates `_dtm` and `_dsm` but not
`_ndsm`. -/
def demoOracleElevPartial : Oracles :=
  { demoOracle with runExtractElevation := fun p fs =>
      (addDataset (addDataset fs (p.output_elevation_raster ++ "_dtm"))
        (p.output_elevation_raster ++ "_dsm"), none) }

def demoElevPartialOut : FsState :=
  (demoOracleElevPartial.runExtractElevation (elevParamsOf demoCtx) demoState.fs).1

/-- Oracle whose elevation routine creates `_dsm` and `_ndsm` but not
`_dtm`. -/
def demoOracleElevNoDtm : Oracles :=
  { demoOracle with runExtractElevation := fun p fs =>
      (addDataset (addDataset fs (p.output_elevation_raster ++ "_dsm"))
        (p.output_elevation_raster ++ "_ndsm"), none) }

def demoElevNoDtmOut : FsState :=
  (demoOracleElevNoDtm.runExtractElevation (elevParamsOf demoCtx) demoState.fs).1

/-- Witness for C3: the success criterion instantiated at the
partial-elevation oracle, and the failure branch exercised both with
`_ndsm` missing and with `_dtm` missing. -/
theorem elevation_requires_all_three_rasters_witness :
    demoState.calls = [] ∧
    demoOracleElevPartial.runExtractElevation (elevParamsOf demoCtx) demoState.fs =
      (demoElevPartialOut, none) ∧
    ((step1 demoOracleElevPartial demoCtx demoState).2 = true ↔
      (pjoin demoCtx.project_ws "elev" ++ "_dtm" ∈ demoElevPartialOut.datasets ∧
        pjoin demoCtx.project_ws "elev" ++ "_dsm" ∈ demoElevPartialOut.datasets ∧
        pjoin demoCtx.project_ws "elev" ++ "_ndsm" ∈ demoElevPartialOut.datasets)) ∧
    "_ndsm" ∈ ["_dtm", "_dsm", "_ndsm"] ∧
    pjoin demoCtx.project_ws "elev" ++ "_ndsm" ∉ demoElevPartialOut.datasets ∧
    ((runStages demoOracleElevPartial demoCtx demoState).1 = RunResult.stageFailed 1 ∧
      (runStages demoOracleElevPartial demoCtx demoState).1.toBool = false ∧
      errTagged 1 (runStages demoOracleElevPartial demoCtx demoState).2.errors ∧
      ∀ cc ∈ (runStages demoOracleElevPartial demoCtx demoState).2.calls,
        callStage cc ≤ 1) ∧
    demoOracleElevNoDtm.runExtractElevation (elevParamsOf demoCtx) demoState.fs =
      (demoElevNoDtmOut, none) ∧
    "_dtm" ∈ ["_dtm", "_dsm", "_ndsm"] ∧
    pjoin demoCtx.project_ws "elev" ++ "_dtm" ∉ demoElevNoDtmOut.datasets ∧
    ((runStages demoOracleElevNoDtm demoCtx demoState).1 = RunResult.stageFailed 1 ∧
      (runStages demoOracleElevNoDtm demoCtx demoState).1.toBool = false ∧
      errTagged 1 (runStages demoOracleElevNoDtm demoCtx demoState).2.errors ∧
      ∀ cc ∈ (runStages demoOracleElevNoDtm demoCtx demoState).2.calls,
        callStage cc ≤ 1) :=
  ⟨rfl, rfl,
    (elevation_requires_all_three_rasters demoOracleElevPartial demoCtx demoState rfl
      demoElevPartialOut rfl).1,
    by decide, by decide,
    (elevation_requires_all_three_rasters demoOracleElevPartial demoCtx demoState rfl
      demoElevPartialOut rfl).2 "_ndsm" (by decide) (by decide),
    rfl, by decide, by decide,
    (elevation_requires_all_three_rasters demoOracleElevNoDtm demoCtx demoState rfl
      demoElevNoDtmOut rfl).2 "_dtm" (by decide) (by decide)⟩

/-- Dataset description without a spatial reference. -/
def demoDescNoSR : DescribeResult :=
  { dataType := "LasDataset", pointCount := 100, fileCount := 2, spatialReference := none }

/-- Oracle reporting a dataset without spatial reference. -/
def demoOracleNoSR : Oracles :=
  { demoOracle with describe := fun _ => .ok demoDescNoSR }

/-- Witness for C4: with no spatial reference, stage 2 fails before calling
the mosaic routine. -/
theorem mosaic_fails_without_spatial_reference_witness :
    demoState.calls = [] ∧
    demoOracleNoSR.describe demoCtx.las_dataset_path = Except.ok demoDescNoSR ∧
    demoDescNoSR.spatialReference = none ∧
    (step1 demoOracleNoSR demoCtx demoState).2 = true ∧
    pjoin demoCtx.project_ws "building_mosaic" ∉
      (step1 demoOracleNoSR demoCtx demoState).1.fs.datasets ∧
    ((runStages demoOracleNoSR demoCtx demoState).1 = RunResult.stageFailed 2 ∧
      (runStages demoOracleNoSR demoCtx demoState).1.toBool = false ∧
      ("Error in " ++ stageName 2 ++ ": " ++
        "Could not obtain spatial reference from LAS dataset") ∈
        (runStages demoOracleNoSR demoCtx demoState).2.errors ∧
      (∀ cc ∈ (runStages demoOracleNoSR demoCtx demoState).2.calls, callStage cc ≤ 1) ∧
      pjoin demoCtx.project_ws "building_mosaic" ∉
        (runStages demoOracleNoSR demoCtx demoState).2.fs.datasets) :=
  ⟨rfl, rfl, rfl, by decide, by decide,
    mosaic_fails_without_spatial_reference demoOracleNoSR demoCtx demoState rfl
      demoDescNoSR rfl rfl (by decide) (by decide)⟩

/-- C5: the roof-form success check probes exactly the two candidate paths
`roof_forms` and `roof_forms_roofform` inside the project workspace, in that
order, and succeeds precisely when at least one of the two exists. -/
theorem roof_form_check_probes_two_candidates (project_ws : String) (s : PState) :
    roof_form_candidates project_ws =
      [pjoin project_ws "roof_forms", pjoin project_ws "roof_forms_roofform"] ∧
    (validate_roof_forms project_ws s).2 =
      (arcpyExists s (pjoin project_ws "roof_forms") ||
        arcpyExists s (pjoin project_ws "roof_forms_roofform")) :=
  ⟨rfl, validate_roof_forms_bool project_ws s⟩

/-- C6: the segmentation stage's success check tests the derived path
obtained by appending `_segmented` to the requested `roof_segments` name,
which is exactly `roof_segments_segmented`, and never the bare requested
name: after a clean routine run, success equals existence of the derived
path in the routine's output, whatever happened to the bare name. -/
theorem segmentation_checks_derived_name (o : Oracles) (c : Ctx) (s : PState)
    (fs' : FsState)
    (hpre : pjoin c.project_ws "elev_dsm" ∈ s.fs.datasets)
    (hrun : o.runSegmentRoof (segmentParamsOf c) (step5OracleInput c s) = (fs', none)) :
    pjoin c.project_ws "roof_segments" ++ "_segmented" =
      pjoin c.project_ws "roof_segments_segmented" ∧
    (step5 o c s).2 =
      fs'.datasets.contains (pjoin c.project_ws "roof_segments_segmented") := by
  have hq : pjoin c.project_ws "roof_segments" ++ "_segmented" =
      pjoin c.project_ws "roof_segments_segmented" := by
    simp only [pjoin]
    rw [String.append_assoc]
    rfl
  refine ⟨hq, ?_⟩
  rw [← hq]
  exact step5_success_iff o c s fs' hpre hrun

/-- Oracle whose segmentation routine writes only the bare requested
`roof_segments` name, not the derived `_segmented` one. -/
def demoOracleSegBare : Oracles :=
  { demoOracle with runSegmentRoof := fun p fs => (addDataset fs p.output_segments_ui, none) }

/-- State for the segmentation witness: the DSM exists but no segmentation
output does. -/
def demoStateSeg : PState :=
  { demoState with fs :=
    { datasets := ["d/L.las", "o/L_processing.gdb/elev_dsm"]
      folders := ["h", "o", "h/roof_forms"] } }

def demoSegBareOut : FsState :=
  (demoOracleSegBare.runSegmentRoof (segmentParamsOf demoCtx)
    (step5OracleInput demoCtx demoStateSeg)).1

/-- Witness for C6: with a routine that produces only the bare name, the
derived-path check makes the stage fail, showing the bare name is never what
is tested. -/
theorem segmentation_checks_derived_name_witness :
    pjoin demoCtx.project_ws "elev_dsm" ∈ demoStateSeg.fs.datasets ∧
    demoOracleSegBare.runSegmentRoof (segmentParamsOf demoCtx)
      (step5OracleInput demoCtx demoStateSeg) = (demoSegBareOut, none) ∧
    (pjoin demoCtx.project_ws "roof_segments" ++ "_segmented" =
        pjoin demoCtx.project_ws "roof_segments_segmented" ∧
      (step5 demoOracleSegBare demoCtx demoStateSeg).2 =
        demoSegBareOut.datasets.contains
          (pjoin demoCtx.project_ws "roof_segments_segmented")) ∧
    demoSegBareOut.datasets.contains (pjoin demoCtx.project_ws "roof_segments") = true ∧
    demoSegBareOut.datasets.contains
      (pjoin demoCtx.project_ws "roof_segments_segmented") = false ∧
    (step5 demoOracleSegBare demoCtx demoStateSeg).2 = false :=
  ⟨by decide, rfl,
    segmentation_checks_derived_name demoOracleSegBare demoCtx demoStateSeg
      demoSegBareOut (by decide) rfl,
    by decide, by decide, by decide⟩

/-- C7: when the dataset path does not resolve, the run fails with the
missing-dataset error immediately: outcome `False`, no workspace-creation
call recorded, and the file system left untouched. -/
theorem missing_dataset_fails_before_workspaces (o : Oracles)
    (las home outdir : String) (s : PState)
    (h0 : s.calls = []) (hmiss : las ∉ s.fs.datasets) :
    (process_las_dataset o las home outdir s).1 = RunResult.missingLasd ∧
    (process_las_dataset o las home outdir s).1.toBool = false ∧
    ("LAS dataset does not exist: " ++ las) ∈
      (process_las_dataset o las home outdir s).2.errors ∧
    (process_las_dataset o las home outdir s).2.calls = [] ∧
    (process_las_dataset o las home outdir s).2.fs = s.fs := by
  unfold process_las_dataset setup
  simp [arcpyExists, hmiss, addError, h0, RunResult.toBool]

/-- Initial state whose dataset path does not resolve. -/
def demoStateNoLasd : PState :=
  { demoState with fs := { datasets := [], folders := ["h", "o"] } }

/-- Witness for C7: a missing dataset aborts before anything is created. -/
theorem missing_dataset_fails_before_workspaces_witness :
    demoStateNoLasd.calls = [] ∧
    "d/L.las" ∉ demoStateNoLasd.fs.datasets ∧
    ((process_las_dataset demoOracle "d/L.las" "h" "o" demoStateNoLasd).1 =
        RunResult.missingLasd ∧
      (process_las_dataset demoOracle "d/L.las" "h" "o" demoStateNoLasd).1.toBool = false ∧
      ("LAS dataset does not exist: " ++ "d/L.las") ∈
        (process_las_dataset demoOracle "d/L.las" "h" "o" demoStateNoLasd).2.errors ∧
      (process_las_dataset demoOracle "d/L.las" "h" "o" demoStateNoLasd).2.calls = [] ∧
      (process_las_dataset demoOracle "d/L.las" "h" "o" demoStateNoLasd).2.fs =
        demoStateNoLasd.fs) :=
  ⟨rfl, by decide,
    missing_dataset_fails_before_workspaces demoOracle "d/L.las" "h" "o"
      demoStateNoLasd rfl (by decide)⟩

/-- Dataset description of the wrong kind. -/
def demoDescWrongType : DescribeResult :=
  { dataType := "Table", pointCount := 0, fileCount := 0, spatialReference := some "SR1" }

/-- Oracle describing the input as a non-LAS object. -/
def demoOracleWrongType : Oracles :=
  { demoOracle with describe := fun _ => .ok demoDescWrongType }

/-- C8 counterexample: with a resolvable dataset path whose described object
is not of the expected kind, the run IS aborted — the outcome is `False`
(`invalidLasd`) and no stage routine ever runs — refuting the claim that the
wrong-type failure is non-fatal and that the stages still execute. -/
theorem wrong_type_aborts_run_counterexample :
    (process_las_dataset demoOracleWrongType "d/L.las" "h" "o" demoState).1 =
      RunResult.invalidLasd ∧
    (process_las_dataset demoOracleWrongType "d/L.las" "h" "o" demoState).1.toBool =
      false ∧
    ((process_las_dataset demoOracleWrongType "d/L.las" "h" "o" demoState).2.calls.all
      (fun cc => callStage cc == 0)) = true ∧
    ("Input is not a valid LAS dataset: " ++ "d/L.las") ∈
      (process_las_dataset demoOracleWrongType "d/L.las" "h" "o" demoState).2.errors :=
  ⟨rfl, rfl, rfl, by decide⟩

/-- C8 (amended): when the dataset path resolves but the described object is
not of the expected point-cloud-dataset kind, validation logs the wrong-type
error and the failure IS fatal: the run returns `False` before any stage
routine is invoked; every recorded call is a stage-0 workspace operation. -/
theorem wrong_type_is_fatal (o : Oracles) (las home outdir : String) (s : PState)
    (h0 : s.calls = []) (d : DescribeResult)
    (hdesc : o.describe las = Except.ok d)
    (hwrong : (d.dataType == "LasDataset") = false)
    (hlas : las ∈ s.fs.datasets) (hhome : home ∈ s.fs.folders)
    (hout : outdir ∈ s.fs.folders) :
    (process_las_dataset o las home outdir s).1 = RunResult.invalidLasd ∧
    (process_las_dataset o las home outdir s).1.toBool = false ∧
    ("Input is not a valid LAS dataset: " ++ las) ∈
      (process_las_dataset o las home outdir s).2.errors ∧
    ∀ cc ∈ (process_las_dataset o las home outdir s).2.calls, callStage cc = 0 := by
  unfold process_las_dataset setup
  simp only [arcpyExists, osExists, check_building_class_code, hdesc, hwrong]
  simp only [List.contains, List.elem_eq_mem, hlas, hhome, hout, decide_True,
    Bool.not_true, Bool.false_eq_true, if_false]
  repeat' split
  all_goals
    simp [addError, addMessage, createFileGDB, recordCall, callStage, h0,
      RunResult.toBool, addDataset]

/-- Witness for the amended C8 at the concrete wrong-type run. -/
theorem wrong_type_is_fatal_witness :
    demoState.calls = [] ∧
    demoOracleWrongType.describe "d/L.las" = Except.ok demoDescWrongType ∧
    (demoDescWrongType.dataType == "LasDataset") = false ∧
    "d/L.las" ∈ demoState.fs.datasets ∧
    "h" ∈ demoState.fs.folders ∧
    "o" ∈ demoState.fs.folders ∧
    ((process_las_dataset demoOracleWrongType "d/L.las" "h" "o" demoState).1 =
        RunResult.invalidLasd ∧
      (process_las_dataset demoOracleWrongType "d/L.las" "h" "o" demoState).1.toBool =
        false ∧
      ("Input is not a valid LAS dataset: " ++ "d/L.las") ∈
        (process_las_dataset demoOracleWrongType "d/L.las" "h" "o" demoState).2.errors ∧
      ∀ cc ∈ (process_las_dataset demoOracleWrongType "d/L.las" "h" "o" demoState).2.calls,
        callStage cc = 0) :=
  ⟨rfl, rfl, rfl, by decide, by decide, by decide,
    wrong_type_is_fatal demoOracleWrongType "d/L.las" "h" "o" demoState rfl
      demoDescWrongType rfl rfl (by decide) (by decide) (by decide)⟩

theorem setup_inl_calls (o : Oracles) (las home outdir : String) (s : PState)
    (r : RunResult) (t : PState)
    (h : setup o las home outdir s = .inl (r, t)) :
    ∀ cc ∈ t.calls, cc ∈ s.calls ∨ ∃ d n, cc = Call.createFileGDB d n := by
  intro cc hcc
  simp only [setup] at h
  repeat' split at h
  all_goals first
    | exact Sum.noConfusion h
    | (injection h with h1
       injection h1 with h2 h3
       subst h3
       simp only [check_building_class_code_calls, createFileGDB, recordCall, addMessage,
         addError, List.mem_append, List.mem_singleton] at hcc
       first
        | (rcases hcc with ((h4 | h4) | h4) | h4
           · exact Or.inl h4
           · exact Or.inr ⟨_, _, h4⟩
           · exact Or.inr ⟨_, _, h4⟩
           · exact Or.inr ⟨_, _, h4⟩)
        | (rcases hcc with (h4 | h4) | h4
           · exact Or.inl h4
           · exact Or.inr ⟨_, _, h4⟩
           · exact Or.inr ⟨_, _, h4⟩)
        | (rcases hcc with h4 | h4
           · exact Or.inl h4
           · exact Or.inr ⟨_, _, h4⟩)
        | exact Or.inl hcc)

theorem traceOK_createFileGDB (d n : String) : TraceOK (Call.createFileGDB d n) :=
  fun _ hq => Call.noConfusion hq

theorem traceOK_makedirs (p : String) : TraceOK (Call.makedirs p) :=
  fun _ hq => Call.noConfusion hq

theorem traceOK_buildingMosaic (p : MosaicParams) : TraceOK (Call.buildingMosaic p) :=
  fun _ hq => Call.noConfusion hq

theorem traceOK_focalStatistics (p : FocalParams) (out : String) :
    TraceOK (Call.focalStatistics p out) :=
  fun _ hq => Call.noConfusion hq

theorem traceOK_footprints (p : FootprintParams) : TraceOK (Call.footprintsFromRaster p) :=
  fun _ hq => Call.noConfusion hq

theorem traceOK_segmentRoof (p : SegmentParams) : TraceOK (Call.segmentRoof p) :=
  fun _ hq => Call.noConfusion hq

theorem traceOK_extractRoofForm (p : RoofFormParams) : TraceOK (Call.extractRoofForm p) :=
  fun _ hq => Call.noConfusion hq

theorem traceOK_elev (c : Ctx) : TraceOK (Call.extractElevation (elevParamsOf c)) := by
  intro q hq
  injection hq with h
  subst h
  exact ⟨rfl, rfl, rfl⟩

theorem runStages_calls (o : Oracles) (c : Ctx) (s : PState) :
    ∀ cc ∈ (runStages o c s).2.calls, cc ∈ s.calls ∨ TraceOK cc := by
  simp only [runStages, andThen_eq]
  by_cases hb1 : (step1 o c s).2 = true
  case neg =>
    rw [if_neg hb1]
    intro cc hcc
    rcases step1_calls o c s cc hcc with h | h
    · exact Or.inl h
    · exact Or.inr (h ▸ traceOK_elev c)
  rw [if_pos hb1]
  have callsAt1 : ∀ cc ∈ (step1 o c s).1.calls, cc ∈ s.calls ∨ TraceOK cc := by
    intro cc hcc
    rcases step1_calls o c s cc hcc with h | h
    · exact Or.inl h
    · exact Or.inr (h ▸ traceOK_elev c)
  by_cases hb2 : (step2 o c (step1 o c s).1).2 = true
  case neg =>
    rw [if_neg hb2]
    intro cc hcc
    rcases step2_calls o c (step1 o c s).1 cc hcc with h | h | ⟨q, h⟩
    · exact callsAt1 cc h
    · exact Or.inr (h ▸ traceOK_makedirs _)
    · exact Or.inr (h ▸ traceOK_buildingMosaic q)
  rw [if_pos hb2]
  have callsAt2 : ∀ cc ∈ (step2 o c (step1 o c s).1).1.calls, cc ∈ s.calls ∨ TraceOK cc := by
    intro cc hcc
    rcases step2_calls o c (step1 o c s).1 cc hcc with h | h | ⟨q, h⟩
    · exact callsAt1 cc h
    · exact Or.inr (h ▸ traceOK_makedirs _)
    · exact Or.inr (h ▸ traceOK_buildingMosaic q)
  by_cases hb3 : (step3 o c (step2 o c (step1 o c s).1).1).2 = true
  case neg =>
    rw [if_neg hb3]
    intro cc hcc
    rcases step3_calls o c (step2 o c (step1 o c s).1).1 cc hcc with h | h
    · exact callsAt2 cc h
    · exact Or.inr (h ▸ traceOK_focalStatistics _ _)
  rw [if_pos hb3]
  have callsAt3 : ∀ cc ∈ (step3 o c (step2 o c (step1 o c s).1).1).1.calls, cc ∈ s.calls ∨ TraceOK cc := by
    intro cc hcc
    rcases step3_calls o c (step2 o c (step1 o c s).1).1 cc hcc with h | h
    · exact callsAt2 cc h
    · exact Or.inr (h ▸ traceOK_focalStatistics _ _)
  by_cases hb4 : (step4 o c (step3 o c (step2 o c (step1 o c s).1).1).1).2 = true
  case neg =>
    rw [if_neg hb4]
    intro cc hcc
    rcases step4_calls o c (step3 o c (step2 o c (step1 o c s).1).1).1 cc hcc with h | h
    · exact callsAt3 cc h
    · exact Or.inr (h ▸ traceOK_footprints _)
  rw [if_pos hb4]
  have callsAt4 : ∀ cc ∈ (step4 o c (step3 o c (step2 o c (step1 o c s).1).1).1).1.calls, cc ∈ s.calls ∨ TraceOK cc := by
    intro cc hcc
    rcases step4_calls o c (step3 o c (step2 o c (step1 o c s).1).1).1 cc hcc with h | h
    · exact callsAt3 cc h
    · exact Or.inr (h ▸ traceOK_footprints _)
  by_cases hb5 : (step5 o c (step4 o c (step3 o c (step2 o c (step1 o c s).1).1).1).1).2 = true
  case neg =>
    rw [if_neg hb5]
    intro cc hcc
    rcases step5_calls o c (step4 o c (step3 o c (step2 o c (step1 o c s).1).1).1).1 cc hcc with h | h | h
    · exact callsAt4 cc h
    · exact Or.inr (h ▸ traceOK_makedirs _)
    · exact Or.inr (h ▸ traceOK_segmentRoof _)
  rw [if_pos hb5]
  have callsAt5 : ∀ cc ∈ (step5 o c (step4 o c (step3 o c (step2 o c (step1 o c s).1).1).1).1).1.calls, cc ∈ s.calls ∨ TraceOK cc := by
    intro cc hcc
    rcases step5_calls o c (step4 o c (step3 o c (step2 o c (step1 o c s).1).1).1).1 cc hcc with h | h | h
    · exact callsAt4 cc h
    · exact Or.inr (h ▸ traceOK_makedirs _)
    · exact Or.inr (h ▸ traceOK_segmentRoof _)
  by_cases hb6 : (step6 o c (step5 o c (step4 o c (step3 o c (step2 o c (step1 o c s).1).1).1).1).1).2 = true
  case neg =>
    rw [if_neg hb6]
    intro cc hcc
    rcases step6_calls o c (step5 o c (step4 o c (step3 o c (step2 o c (step1 o c s).1).1).1).1).1 cc hcc with h | h
    · exact callsAt5 cc h
    · exact Or.inr (h ▸ traceOK_extractRoofForm _)
  rw [if_pos hb6]
  have callsAt6 : ∀ cc ∈ (step6 o c (step5 o c (step4 o c (step3 o c (step2 o c (step1 o c s).1).1).1).1).1).1.calls, cc ∈ s.calls ∨ TraceOK cc := by
    intro cc hcc
    rcases step6_calls o c (step5 o c (step4 o c (step3 o c (step2 o c (step1 o c s).1).1).1).1).1 cc hcc with h | h
    · exact callsAt5 cc h
    · exact Or.inr (h ▸ traceOK_extractRoofForm _)
  exact callsAt6
theorem process_calls (o : Oracles) (las home outdir : String) (s : PState) :
    ∀ cc ∈ (process_las_dataset o las home outdir s).2.calls,
      cc ∈ s.calls ∨ TraceOK cc := by
  unfold process_las_dataset
  rcases hsu : setup o las home outdir s with ⟨r, t⟩ | ⟨c, s1⟩
  · intro cc hcc
    rcases setup_inl_calls o las home outdir s r t hsu cc hcc with h | ⟨d, n, h⟩
    · exact Or.inl h
    · exact Or.inr (h ▸ traceOK_createFileGDB d n)
  · intro cc hcc
    rcases runStages_calls o c s1 cc hcc with h | h
    · rcases setup_inr_calls o las home outdir s c s1 hsu cc h with h2 | ⟨d, n, h2⟩
      · exact Or.inl h2
      · exact Or.inr (h2 ▸ traceOK_createFileGDB d n)
    · exact Or.inr h

/-- C9: the three optional tool parameters (cell size, class code, minimum
height) are never read on the execution path: two invocations agreeing on
the dataset, home directory and output directory behave identically, and
every recorded elevation call carries the fixed constants cell size "0.3",
class code 6 and minimum height "0.5". -/
theorem optional_parameters_are_ignored (o : Oracles) (p1 p2 : ToolParams)
    (s : PState) (h0 : s.calls = [])
    (hlas : p1.las_dataset = p2.las_dataset)
    (hhome : p1.home_directory = p2.home_directory)
    (hout : p1.output_directory = p2.output_directory) :
    BuildingProcessor_execute o p1 s = BuildingProcessor_execute o p2 s ∧
    ∀ cc ∈ (BuildingProcessor_execute o p1 s).2.calls, ∀ q,
      cc = Call.extractElevation q →
      q.cell_size = "0.3" ∧ q.class_code = 6 ∧ q.minimum_height = "0.5" := by
  constructor
  · unfold BuildingProcessor_execute
    rw [hlas, hhome, hout]
  · intro cc hcc q hq
    have hcc2 : cc ∈ (process_las_dataset o p1.las_dataset p1.home_directory
        p1.output_directory s).2.calls := by
      simp only [BuildingProcessor_execute] at hcc
      split at hcc
      · simpa [addMessage] using hcc
      · simpa [addError] using hcc
    rcases process_calls o p1.las_dataset p1.home_directory p1.output_directory s
        cc hcc2 with h | h
    · rw [h0] at h
      simp at h
    · exact h q hq

/-- Tool parameters with the default optional values. -/
def demoParams1 : ToolParams :=
  { las_dataset := "d/L.las", home_directory := "h", output_directory := "o"
    cell_size := "0.3", class_code := 6, min_height := "0.5" }

/-- Same required inputs, different optional overrides. -/
def demoParams2 : ToolParams :=
  { demoParams1 with cell_size := "9.9", class_code := 17, min_height := "3.3" }

/-- Witness for C9: the two parameter vectors differ only in the optional
values and produce identical executions with the constant elevation call. -/
theorem optional_parameters_are_ignored_witness :
    demoState.calls = [] ∧
    demoParams1.las_dataset = demoParams2.las_dataset ∧
    demoParams1.home_directory = demoParams2.home_directory ∧
    demoParams1.output_directory = demoParams2.output_directory ∧
    (BuildingProcessor_execute demoOracle demoParams1 demoState =
        BuildingProcessor_execute demoOracle demoParams2 demoState ∧
      ∀ cc ∈ (BuildingProcessor_execute demoOracle demoParams1 demoState).2.calls, ∀ q,
        cc = Call.extractElevation q →
        q.cell_size = "0.3" ∧ q.class_code = 6 ∧ q.minimum_height = "0.5") :=
  ⟨rfl, rfl, rfl, rfl,
    optional_parameters_are_ignored demoOracle demoParams1 demoParams2 demoState
      rfl rfl rfl rfl⟩

theorem withGdbExt_Intermediate : withGdbExt "Intermediate" = "Intermediate.gdb" := rfl

theorem strEndsWith_append_gdb (x : String) :
    strEndsWith (x ++ "_processing.gdb") ".gdb" = true := by
  unfold strEndsWith
  have h1 : (x ++ "_processing.gdb").toList = x.toList ++ "_processing.gdb".toList := by
    simp [String.toList, String.data_append]
  rw [h1, List.reverse_append]
  rw [List.take_append_of_le_length (by decide)]
  decide

theorem withGdbExt_processing (x : String) :
    withGdbExt (x ++ "_processing.gdb") = x ++ "_processing.gdb" := by
  unfold withGdbExt
  rw [strEndsWith_append_gdb]
  simp

/-- C10: when the dataset path resolves but the type check fails, the run
returns `False` only after both containers have been created and installed as
the ambient workspace environment: the Intermediate and project geodatabases
exist in the final state, both creation calls were recorded, and the
workspace/scratch environment points at them.  The failure is not atomic with
respect to on-disk state. -/
theorem wrong_type_leaves_created_workspaces (o : Oracles) (las home outdir : String)
    (s : PState) (d : DescribeResult)
    (hdesc : o.describe las = Except.ok d)
    (hwrong : (d.dataType == "LasDataset") = false)
    (hlas : las ∈ s.fs.datasets) (hhome : home ∈ s.fs.folders)
    (hout : outdir ∈ s.fs.folders)
    (hni : pjoin outdir "Intermediate.gdb" ∉ s.fs.datasets)
    (hnp : pjoin outdir (splitextRoot (basename las) ++ "_processing.gdb") ∉ s.fs.datasets)
    (hne : pjoin outdir (splitextRoot (basename las) ++ "_processing.gdb") ≠
      pjoin outdir "Intermediate.gdb") :
    (process_las_dataset o las home outdir s).1 = RunResult.invalidLasd ∧
    (process_las_dataset o las home outdir s).1.toBool = false ∧
    pjoin outdir "Intermediate.gdb" ∈
      (process_las_dataset o las home outdir s).2.fs.datasets ∧
    pjoin outdir (splitextRoot (basename las) ++ "_processing.gdb") ∈
      (process_las_dataset o las home outdir s).2.fs.datasets ∧
    (process_las_dataset o las home outdir s).2.envScratch =
      some (pjoin outdir "Intermediate.gdb") ∧
    (process_las_dataset o las home outdir s).2.envWorkspace =
      some (pjoin outdir (splitextRoot (basename las) ++ "_processing.gdb")) ∧
    Call.createFileGDB outdir "Intermediate" ∈
      (process_las_dataset o las home outdir s).2.calls ∧
    Call.createFileGDB outdir (splitextRoot (basename las) ++ "_processing.gdb") ∈
      (process_las_dataset o las home outdir s).2.calls := by
  unfold process_las_dataset setup
  simp only [arcpyExists, osExists, check_building_class_code, hdesc, hwrong,
    createFileGDB, recordCall, addDataset, addMessage, addError,
    withGdbExt_Intermediate, withGdbExt_processing]
  simp [hlas, hhome, hout, hni, hnp, hne, RunResult.toBool]

/-- Witness for C10 at the concrete wrong-type run on a fresh output
directory. -/
theorem wrong_type_leaves_created_workspaces_witness :
    demoOracleWrongType.describe "d/L.las" = Except.ok demoDescWrongType ∧
    (demoDescWrongType.dataType == "LasDataset") = false ∧
    "d/L.las" ∈ demoState.fs.datasets ∧
    "h" ∈ demoState.fs.folders ∧
    "o" ∈ demoState.fs.folders ∧
    pjoin "o" "Intermediate.gdb" ∉ demoState.fs.datasets ∧
    pjoin "o" (splitextRoot (basename "d/L.las") ++ "_processing.gdb") ∉
      demoState.fs.datasets ∧
    pjoin "o" (splitextRoot (basename "d/L.las") ++ "_processing.gdb") ≠
      pjoin "o" "Intermediate.gdb" ∧
    ((process_las_dataset demoOracleWrongType "d/L.las" "h" "o" demoState).1 =
        RunResult.invalidLasd ∧
      (process_las_dataset demoOracleWrongType "d/L.las" "h" "o" demoState).1.toBool =
        false ∧
      pjoin "o" "Intermediate.gdb" ∈
        (process_las_dataset demoOracleWrongType "d/L.las" "h" "o" demoState).2.fs.datasets ∧
      pjoin "o" (splitextRoot (basename "d/L.las") ++ "_processing.gdb") ∈
        (process_las_dataset demoOracleWrongType "d/L.las" "h" "o" demoState).2.fs.datasets ∧
      (process_las_dataset demoOracleWrongType "d/L.las" "h" "o" demoState).2.envScratch =
        some (pjoin "o" "Intermediate.gdb") ∧
      (process_las_dataset demoOracleWrongType "d/L.las" "h" "o" demoState).2.envWorkspace =
        some (pjoin "o" (splitextRoot (basename "d/L.las") ++ "_processing.gdb")) ∧
      Call.createFileGDB "o" "Intermediate" ∈
        (process_las_dataset demoOracleWrongType "d/L.las" "h" "o" demoState).2.calls ∧
      Call.createFileGDB "o" (splitextRoot (basename "d/L.las") ++ "_processing.gdb") ∈
        (process_las_dataset demoOracleWrongType "d/L.las" "h" "o" demoState).2.calls) :=
  ⟨rfl, rfl, by decide, by decide, by decide, by decide, by decide, by decide,
    wrong_type_leaves_created_workspaces demoOracleWrongType "d/L.las" "h" "o"
      demoState demoDescWrongType rfl rfl (by decide) (by decide) (by decide)
      (by decide) (by decide) (by decide)⟩
